import Mathlib

/-!
Verification of the CPU interpreter core (src/pse/cpu_core.cpp) and the
analog-controller serial state machine (src/core/analog_controller.cpp) of a
PlayStation-1 emulator.  Machine words are `Nat` values kept below `2 ^ 32`
with explicit reductions modulo `2 ^ 32` wherever the C++ `u32` arithmetic
wraps.  The bus and the GTE coprocessor are external collaborators and are
modelled as parameters.
-/

set_option maxHeartbeats 1000000
set_option maxRecDepth 4000

namespace CPU

/-- 2 ^ 32, the modulus of the 32-bit machine words. -/
def MASK32 : Nat := 4294967296

/-- Signed view of a 32-bit word (the C++ cast to s32). -/
def toSigned (x : Nat) : Int :=
  if x < 2147483648 then (x : Int) else (x : Int) - 4294967296

/-- Unsigned 32-bit view of an integer (the C++ cast to u32). -/
def ofInt (i : Int) : Nat := (i.emod 4294967296).toNat

/-- Sign extension of a 16-bit immediate to a 32-bit word (imm_sext32). -/
def sext16 (x : Nat) : Nat := if x < 32768 then x else x + 4294901760

/-- Sign extension of an 8-bit byte to a 32-bit word (SignExtend32 on u8). -/
def sext8 (x : Nat) : Nat := if x < 128 then x else x + 4294967040

/-- Arithmetic right shift of a 32-bit word (C++ signed >> on s32). -/
def sra32 (x sh : Nat) : Nat := ofInt (Int.ediv (toSigned x) ((2 : Int) ^ sh))

/-- Bitwise complement within 32 bits (C++ ~ on u32). -/
def not32 (x : Nat) : Nat := 4294967295 ^^^ x

/-- Modelled from the spec: the instruction field accessors come from the
repository's cpu_types.h header, which is not under src/; the spec fixes the
standard MIPS-I field layout (six-bit primary opcode, rs/rt/rd/shamt/funct
fields, 16-bit immediate, 26-bit jump target). -/
def instOp (i : Nat) : Nat := (i >>> 26) % 64

/-- rs register field, bits 21..25. -/
def instRs (i : Nat) : Fin 32 := ⟨(i >>> 21) % 32, Nat.mod_lt _ (by norm_num)⟩

/-- rt register field, bits 16..20. -/
def instRt (i : Nat) : Fin 32 := ⟨(i >>> 16) % 32, Nat.mod_lt _ (by norm_num)⟩

/-- rd register field, bits 11..15. -/
def instRd (i : Nat) : Fin 32 := ⟨(i >>> 11) % 32, Nat.mod_lt _ (by norm_num)⟩

/-- rt field as a raw number (used for the REGIMM selector and cop indices). -/
def instRtNat (i : Nat) : Nat := (i >>> 16) % 32

/-- rd field as a raw number (used as the coprocessor register index). -/
def instRdNat (i : Nat) : Nat := (i >>> 11) % 32

/-- shamt field, bits 6..10. -/
def instShamt (i : Nat) : Nat := (i >>> 6) % 32

/-- funct field, bits 0..5. -/
def instFunct (i : Nat) : Nat := i % 64

/-- 16-bit immediate field (imm_zext32). -/
def instImm (i : Nat) : Nat := i % 65536

/-- 26-bit jump target field. -/
def instTarget (i : Nat) : Nat := i % 67108864

/-- Coprocessor number of a cop opcode (inst.cop.cop_n, low two opcode bits). -/
def copN (i : Nat) : Nat := (i >>> 26) % 4

/-- Modelled from the spec: is_cop2_instruction must return true for primary
opcode 0x12 (COP2) only. -/
def isCop2Inst (i : Nat) : Bool := instOp i == 18

/-- The SR (status) register, modelled structurally.  Modelled from the spec:
the bitfield layout lives in the missing cpu_types.h header; the spec gives a
6-bit mode stack (current/previous/old pairs of interrupt-enable and
kernel/user bits, IEc at bit 0, KUc at bit 1), the 8-bit interrupt mask Im at
bits 8..15, BEV at bit 22 and CU0/CU2 at bits 28/30 of the packed word. -/
structure SRReg where
  mode_bits : Nat
  Im : Nat
  BEV : Bool
  CU0 : Bool
  CU2 : Bool
  deriving DecidableEq, Repr

/-- Packed 32-bit view of SR (sr.bits), used by interrupt dispatch. -/
def srBits (r : SRReg) : Nat :=
  r.mode_bits % 64 ||| ((r.Im % 256) <<< 8) ||| (cond r.BEV (1 <<< 22) 0) |||
    (cond r.CU0 (1 <<< 28) 0) ||| (cond r.CU2 (1 <<< 30) 0)

/-- The CAUSE register, modelled structurally.  Modelled from the spec: Excode
(5 bits, at bits 2..6 of the packed word), Ip (8 bits at 8..15), CE at 28..29,
BT at bit 30, BD at bit 31. -/
structure CauseReg where
  Excode : Nat
  Ip : Nat
  CE : Nat
  BT : Bool
  BD : Bool
  deriving DecidableEq, Repr

/-- Packed 32-bit view of CAUSE (cause.bits), used by interrupt dispatch. -/
def causeBits (c : CauseReg) : Nat :=
  ((c.Excode % 32) <<< 2) ||| ((c.Ip % 256) <<< 8) ||| ((c.CE % 4) <<< 28) |||
    (cond c.BT (1 <<< 30) 0) ||| (cond c.BD (1 <<< 31) 0)

/-- Coprocessor 0 register file. -/
structure Cop0Regs where
  BPC : Nat
  BDA : Nat
  TAR : Nat
  BadVaddr : Nat
  BDAM : Nat
  BPCM : Nat
  EPC : Nat
  PRID : Nat
  sr : SRReg
  cause : CauseReg
  dcic : Nat
  deriving DecidableEq, Repr

/-- The CPU exception taxonomy (enum Exception). Excode values are the
standard R3000A codes named by the spec's error-handling section. -/
inductive Exc
  | INT | AdEL | AdES | IBE | DBE | Syscall | BP | RI | CpU | Ov
  deriving DecidableEq, Repr

/-- Excode value stored into CAUSE for each exception. -/
def excodeOf : Exc → Nat
  | .INT => 0
  | .AdEL => 4
  | .AdES => 5
  | .IBE => 6
  | .DBE => 7
  | .Syscall => 8
  | .BP => 9
  | .RI => 10
  | .CpU => 11
  | .Ov => 12

/-- The bus interface consumed by the CPU: reads return none on bus error,
writes report success.  The bus is an external collaborator, so CPU-visible
state does not include memory contents. -/
structure Bus where
  readByte : Nat → Option Nat
  readHalf : Nat → Option Nat
  readWord : Nat → Option Nat
  writeByte : Nat → Nat → Bool
  writeHalf : Nat → Nat → Bool
  writeWord : Nat → Nat → Bool

/-- The GTE (COP2) collaborator interface over an opaque state type `G`:
register file transfers and instruction dispatch, as given by the spec's
external-interface section. -/
structure GTEIface (G : Type) where
  readData : G → Nat → Nat
  writeData : G → Nat → Nat → G
  readCtrl : G → Nat → Nat
  writeCtrl : G → Nat → Nat → G
  runInst : G → Nat → G

/-- The CPU core state: register file, pc/npc, hi/lo, COP0 registers, the
visible pipeline shadow, the load-delay shadow, and the tick budget. -/
structure CPUState (G : Type) where
  regs : Fin 32 → Nat
  pc : Nat
  npc : Nat
  hi : Nat
  lo : Nat
  cop0 : Cop0Regs
  next_instruction : Nat
  current_instruction : Nat
  current_instruction_pc : Nat
  current_in_branch_delay_slot : Bool
  current_was_branch_taken : Bool
  next_is_branch_delay_slot : Bool
  branch_was_taken : Bool
  load_delay_reg : Option (Fin 32)
  load_delay_old_value : Nat
  next_load_delay_reg : Option (Fin 32)
  next_load_delay_old_value : Nat
  pending_ticks : Int
  downcount : Int
  gte : G

variable {G : Type}

/-- Core::ReadReg: the pending load-delay slot suppresses the register-file
read. -/
def ReadReg (s : CPUState G) (r : Fin 32) : Nat :=
  if s.load_delay_reg = some r then s.load_delay_old_value else s.regs r

/-- Core::WriteReg: writes to register 0 are dropped. -/
def WriteReg (s : CPUState G) (r : Fin 32) (v : Nat) : CPUState G :=
  if r = 0 then s else { s with regs := Function.update s.regs r v }

/-- Core::WriteRegDelayed: writes immediately but records (register, prior
value) into the next-load-delay slot; writes to register 0 are dropped. -/
def WriteRegDelayed (s : CPUState G) (r : Fin 32) (v : Nat) : CPUState G :=
  if r = 0 then s
  else
    { s with
      next_load_delay_reg := some r
      next_load_delay_old_value := ReadReg s r
      regs := Function.update s.regs r v }

/-- Core::GetExceptionVector: base | 0x80; BEV selects the base. -/
def GetExceptionVector (bev : Bool) : Nat :=
  (cond bev 3217031424 2147483648) ||| 128

/-- The pure part of Core::RaiseException (the explicit form): store the
bookkeeping into CAUSE/EPC, adjust for the branch delay slot, push the SR
mode stack (the 6-bit field wraps), and point npc at the vector.  The
pipeline flush that follows is FlushPipeline. -/
def RaiseCore (exc : Exc) (epc : Nat) (bd bt : Bool) (ce : Nat)
    (s : CPUState G) : CPUState G :=
  let c0 := s.cop0
  let c1 := { c0 with
    EPC := epc
    cause := { c0.cause with Excode := excodeOf exc, BD := bd, BT := bt, CE := ce } }
  let c2 := if bd then { c1 with EPC := (c1.EPC + 4294967292) % MASK32, TAR := s.pc } else c1
  let c3 := { c2 with sr := { c2.sr with mode_bits := (c2.sr.mode_bits <<< 2) % 64 } }
  { s with cop0 := c3, npc := GetExceptionVector c3.sr.BEV }

/-- Core::FlushPipeline minus the refetch: flush the load-delay shadow and
clear the branch flags (FlushLoadDelay plus the flag clears). -/
def FlushPrep (s : CPUState G) : CPUState G :=
  { s with
    load_delay_reg := none
    load_delay_old_value := 0
    next_load_delay_reg := none
    next_load_delay_old_value := 0
    branch_was_taken := false
    next_is_branch_delay_slot := false }

/-- Core::FetchInstruction.  A failed fetch raises AdEL (misaligned, setting
BadVaddr) or IBE (bus error) with the explicit form, whose pipeline flush
refetches; `fuel` bounds that recursion (the C++ recursion is unbounded when
the vector itself keeps faulting). -/
def FetchInstruction (bus : Bus) : Nat → CPUState G → Bool × CPUState G
  | fuel, s =>
    if s.npc % 4 = 0 then
      match bus.readWord s.npc with
      | some w =>
        (true, { s with next_instruction := w, pc := s.npc, npc := (s.npc + 4) % MASK32 })
      | none =>
        let s1 := FlushPrep (RaiseCore Exc.IBE s.npc false false 0 s)
        match fuel with
        | 0 => (false, s1)
        | f + 1 => (false, (FetchInstruction bus f s1).2)
    else
      let s0 := { s with cop0 := { s.cop0 with BadVaddr := s.npc } }
      let s1 := FlushPrep (RaiseCore Exc.AdEL s.npc false false 0 s0)
      match fuel with
      | 0 => (false, s1)
      | f + 1 => (false, (FetchInstruction bus f s1).2)

/-- Core::RaiseException (explicit form): RaiseCore followed by the pipeline
flush and its refetch. -/
def RaiseException (bus : Bus) (fuel : Nat) (exc : Exc) (epc : Nat)
    (bd bt : Bool) (ce : Nat) (s : CPUState G) : CPUState G :=
  (FetchInstruction bus fuel (FlushPrep (RaiseCore exc epc bd bt ce s))).2

/-- Core::RaiseException (implicit form): bookkeeping comes from the
currently-executing instruction. -/
def RaiseCur (bus : Bus) (fuel : Nat) (exc : Exc) (s : CPUState G) : CPUState G :=
  RaiseException bus fuel exc s.current_instruction_pc
    s.current_in_branch_delay_slot s.current_was_branch_taken
    (copN s.current_instruction) s

/-- Core::ReadMemoryByte: a bus failure raises DBE. -/
def ReadMemoryByte (bus : Bus) (fuel : Nat) (addr : Nat) (s : CPUState G) :
    Option Nat × CPUState G :=
  match bus.readByte addr with
  | some v => (some v, s)
  | none => (none, RaiseCur bus fuel Exc.DBE s)

/-- Core::ReadMemoryHalfWord.  Modelled from the spec for the alignment
check (DoAlignmentCheck lives in the missing header): a misaligned halfword
load raises AdEL with BadVaddr set to the address. -/
def ReadMemoryHalfWord (bus : Bus) (fuel : Nat) (addr : Nat) (s : CPUState G) :
    Option Nat × CPUState G :=
  if addr % 2 = 0 then
    match bus.readHalf addr with
    | some v => (some v, s)
    | none => (none, RaiseCur bus fuel Exc.DBE s)
  else
    (none, RaiseCur bus fuel Exc.AdEL
      { s with cop0 := { s.cop0 with BadVaddr := addr } })

/-- Core::ReadMemoryWord.  Modelled from the spec for the alignment check: a
misaligned word load raises AdEL with BadVaddr set to the address. -/
def ReadMemoryWord (bus : Bus) (fuel : Nat) (addr : Nat) (s : CPUState G) :
    Option Nat × CPUState G :=
  if addr % 4 = 0 then
    match bus.readWord addr with
    | some v => (some v, s)
    | none => (none, RaiseCur bus fuel Exc.DBE s)
  else
    (none, RaiseCur bus fuel Exc.AdEL
      { s with cop0 := { s.cop0 with BadVaddr := addr } })

/-- Core::WriteMemoryByte: a bus failure raises DBE. -/
def WriteMemoryByte (bus : Bus) (fuel : Nat) (addr v : Nat) (s : CPUState G) :
    CPUState G :=
  if bus.writeByte addr v then s else RaiseCur bus fuel Exc.DBE s

/-- Core::WriteMemoryHalfWord.  Modelled from the spec for the alignment
check: a misaligned halfword store raises AdES with BadVaddr set. -/
def WriteMemoryHalfWord (bus : Bus) (fuel : Nat) (addr v : Nat) (s : CPUState G) :
    CPUState G :=
  if addr % 2 = 0 then
    if bus.writeHalf addr v then s else RaiseCur bus fuel Exc.DBE s
  else
    RaiseCur bus fuel Exc.AdES { s with cop0 := { s.cop0 with BadVaddr := addr } }

/-- Core::WriteMemoryWord.  Modelled from the spec for the alignment check: a
misaligned word store raises AdES with BadVaddr set. -/
def WriteMemoryWord (bus : Bus) (fuel : Nat) (addr v : Nat) (s : CPUState G) :
    CPUState G :=
  if addr % 4 = 0 then
    if bus.writeWord addr v then s else RaiseCur bus fuel Exc.DBE s
  else
    RaiseCur bus fuel Exc.AdES { s with cop0 := { s.cop0 with BadVaddr := addr } }

/-- Modelled from the spec: Cop0Reg numbers come from the missing header; the
standard R3000A numbering is BPC=3, BDA=5, JUMPDEST=6, DCIC=7, BadVaddr=8,
BDAM=9, BPCM=11, SR=12, CAUSE=13, EPC=14, PRID=15.  Core::ReadCop0Reg returns
none for unknown registers. -/
def ReadCop0Reg (s : CPUState G) (n : Nat) : Option Nat :=
  if n = 3 then some s.cop0.BPC
  else if n = 5 then some s.cop0.BDA
  else if n = 6 then some s.cop0.TAR
  else if n = 7 then some s.cop0.dcic
  else if n = 8 then some s.cop0.BadVaddr
  else if n = 9 then some s.cop0.BDAM
  else if n = 11 then some s.cop0.BPCM
  else if n = 12 then some (srBits s.cop0.sr)
  else if n = 13 then some (causeBits s.cop0.cause)
  else if n = 14 then some s.cop0.EPC
  else if n = 15 then some s.cop0.PRID
  else none

/-- Core::WriteCop0Reg.  Modelled from the spec for the SR/CAUSE/DCIC write
masks whose values live in the missing header: SR writes update the mode
stack, Im, BEV and the coprocessor-usability bits from the packed word;
CAUSE writes update only the two software-interrupt bits of Ip; DCIC is
storage-only; JUMPDEST writes are ignored. -/
def WriteCop0Reg (s : CPUState G) (n v : Nat) : CPUState G :=
  if n = 3 then { s with cop0 := { s.cop0 with BPC := v } }
  else if n = 5 then { s with cop0 := { s.cop0 with BDA := v } }
  else if n = 6 then s
  else if n = 7 then { s with cop0 := { s.cop0 with dcic := v } }
  else if n = 9 then { s with cop0 := { s.cop0 with BDAM := v } }
  else if n = 11 then { s with cop0 := { s.cop0 with BPCM := v } }
  else if n = 12 then
    { s with cop0 := { s.cop0 with sr :=
      { mode_bits := v % 64, Im := (v >>> 8) % 256, BEV := Nat.testBit v 22,
        CU0 := Nat.testBit v 28, CU2 := Nat.testBit v 30 } } }
  else if n = 13 then
    { s with cop0 := { s.cop0 with cause :=
      { s.cop0.cause with Ip := (s.cop0.cause.Ip / 4 * 4) + ((v >>> 8) % 4) } } }
  else s

/-- Core::InUserMode.  Modelled from the spec: the current kernel/user bit is
KUc, bit 1 of the SR mode stack; 1 means user mode. -/
def InUserMode (s : CPUState G) : Bool := Nat.testBit s.cop0.sr.mode_bits 1

/-- Core::Branch: set npc to the target and flag the branch as taken. -/
def Branch (s : CPUState G) (target : Nat) : CPUState G :=
  { s with npc := target, branch_was_taken := true }

/-- Modelled from the spec: cop instruction sub-decoding comes from the
missing header.  A cop instruction is a common transfer when bit 25 is
clear; the common op is then the rs field (mfc=0, cfc=2, mtc=4, ctc=6), and
the cop0-specific op is the funct field (rfe=16). -/
def copIsCommon (i : Nat) : Bool := !(Nat.testBit i 25)

/-- Common cop transfer selector (the rs field). -/
def copCommonOp (i : Nat) : Nat := (i >>> 21) % 32

/-- Core::ExecuteCop0Instruction.  The unimplemented panicking branches are
modelled as no-ops. -/
def ExecuteCop0Instruction (bus : Bus) (fuel : Nat) (s : CPUState G) : CPUState G :=
  let inst := s.current_instruction
  if copIsCommon inst then
    if copCommonOp inst = 0 then
      match ReadCop0Reg s (instRdNat inst) with
      | some v => WriteRegDelayed s (instRt inst) v
      | none => RaiseCur bus fuel Exc.RI s
    else if copCommonOp inst = 4 then
      WriteCop0Reg s (instRdNat inst) (ReadReg s (instRt inst))
    else s
  else
    if instFunct inst = 16 then
      { s with cop0 := { s.cop0 with sr := { s.cop0.sr with
        mode_bits := (s.cop0.sr.mode_bits &&& 48) ||| (s.cop0.sr.mode_bits >>> 2) } } }
    else s

/-- Core::ExecuteCop2Instruction: common transfers move between the register
file and the GTE; everything else is dispatched to the GTE collaborator. -/
def ExecuteCop2Instruction (gi : GTEIface G) (s : CPUState G) : CPUState G :=
  let inst := s.current_instruction
  if copIsCommon inst then
    if copCommonOp inst = 2 then
      WriteRegDelayed s (instRt inst) (gi.readCtrl s.gte (instRdNat inst))
    else if copCommonOp inst = 6 then
      { s with gte := gi.writeCtrl s.gte (instRdNat inst) (ReadReg s (instRt inst)) }
    else if copCommonOp inst = 0 then
      WriteRegDelayed s (instRt inst) (gi.readData s.gte (instRdNat inst))
    else if copCommonOp inst = 4 then
      { s with gte := gi.writeData s.gte (instRdNat inst) (ReadReg s (instRt inst)) }
    else s
  else
    { s with gte := gi.runInst s.gte inst }

/-- AddOverflow: the add/addi overflow predicate from the source. -/
def AddOverflow (old_value add_value new_value : Nat) : Bool :=
  (((new_value ^^^ old_value) &&& (new_value ^^^ add_value)) &&& 2147483648) != 0

/-- SubOverflow: the sub overflow predicate from the source. -/
def SubOverflow (old_value sub_value new_value : Nat) : Bool :=
  (((new_value ^^^ old_value) &&& (old_value ^^^ sub_value)) &&& 2147483648) != 0

/-- Core::ExecuteInstruction: the two-level opcode dispatch over the decoded
current instruction. -/
def ExecuteInstruction (gi : GTEIface G) (bus : Bus) (fuel : Nat)
    (s : CPUState G) : CPUState G :=
  let inst := s.current_instruction
  match instOp inst with
  | 0 =>
    match instFunct inst with
    | 0 => WriteReg s (instRd inst) ((ReadReg s (instRt inst) <<< instShamt inst) % MASK32)
    | 2 => WriteReg s (instRd inst) (ReadReg s (instRt inst) >>> instShamt inst)
    | 3 => WriteReg s (instRd inst) (sra32 (ReadReg s (instRt inst)) (instShamt inst))
    | 4 => WriteReg s (instRd inst)
        ((ReadReg s (instRt inst) <<< (ReadReg s (instRs inst) % 32)) % MASK32)
    | 6 => WriteReg s (instRd inst)
        (ReadReg s (instRt inst) >>> (ReadReg s (instRs inst) % 32))
    | 7 => WriteReg s (instRd inst)
        (sra32 (ReadReg s (instRt inst)) (ReadReg s (instRs inst) % 32))
    | 8 =>
      let s1 := { s with next_is_branch_delay_slot := true }
      Branch s1 (ReadReg s1 (instRs inst))
    | 9 =>
      let s1 := { s with next_is_branch_delay_slot := true }
      let target := ReadReg s1 (instRs inst)
      Branch (WriteReg s1 (instRd inst) s1.npc) target
    | 12 => RaiseCur bus fuel Exc.Syscall s
    | 13 => RaiseCur bus fuel Exc.BP s
    | 16 => WriteReg s (instRd inst) s.hi
    | 17 => { s with hi := ReadReg s (instRs inst) }
    | 18 => WriteReg s (instRd inst) s.lo
    | 19 => { s with lo := ReadReg s (instRs inst) }
    | 24 =>
      let result := ((toSigned (ReadReg s (instRs inst)) *
        toSigned (ReadReg s (instRt inst))).emod 18446744073709551616).toNat
      { s with hi := result >>> 32, lo := result % MASK32 }
    | 25 =>
      let result := ReadReg s (instRs inst) * ReadReg s (instRt inst)
      { s with hi := result >>> 32, lo := result % MASK32 }
    | 26 =>
      let num := toSigned (ReadReg s (instRs inst))
      let denom := toSigned (ReadReg s (instRt inst))
      if denom = 0 then
        { s with lo := if 0 ≤ num then 4294967295 else 1, hi := ofInt num }
      else if num = -2147483648 ∧ denom = -1 then
        { s with lo := 2147483648, hi := 0 }
      else
        { s with lo := ofInt (Int.tdiv num denom), hi := ofInt (Int.tmod num denom) }
    | 27 =>
      let num := ReadReg s (instRs inst)
      let denom := ReadReg s (instRt inst)
      if denom = 0 then
        { s with lo := 4294967295, hi := num }
      else
        { s with lo := num / denom, hi := num % denom }
    | 32 =>
      let old_value := ReadReg s (instRs inst)
      let add_value := ReadReg s (instRt inst)
      let new_value := (old_value + add_value) % MASK32
      if AddOverflow old_value add_value new_value then RaiseCur bus fuel Exc.Ov s
      else WriteReg s (instRd inst) new_value
    | 33 => WriteReg s (instRd inst)
        ((ReadReg s (instRs inst) + ReadReg s (instRt inst)) % MASK32)
    | 34 =>
      let old_value := ReadReg s (instRs inst)
      let sub_value := ReadReg s (instRt inst)
      let new_value := (old_value + (MASK32 - sub_value)) % MASK32
      if SubOverflow old_value sub_value new_value then RaiseCur bus fuel Exc.Ov s
      else WriteReg s (instRd inst) new_value
    | 35 => WriteReg s (instRd inst)
        ((ReadReg s (instRs inst) + (MASK32 - ReadReg s (instRt inst))) % MASK32)
    | 36 => WriteReg s (instRd inst) (ReadReg s (instRs inst) &&& ReadReg s (instRt inst))
    | 37 => WriteReg s (instRd inst) (ReadReg s (instRs inst) ||| ReadReg s (instRt inst))
    | 38 => WriteReg s (instRd inst) (ReadReg s (instRs inst) ^^^ ReadReg s (instRt inst))
    | 39 => WriteReg s (instRd inst) (not32 (ReadReg s (instRs inst) ||| ReadReg s (instRt inst)))
    | 42 => WriteReg s (instRd inst)
        (if toSigned (ReadReg s (instRs inst)) < toSigned (ReadReg s (instRt inst)) then 1 else 0)
    | 43 => WriteReg s (instRd inst)
        (if ReadReg s (instRs inst) < ReadReg s (instRt inst) then 1 else 0)
    | _ => RaiseCur bus fuel Exc.RI s
  | 1 =>
    let s1 := { s with next_is_branch_delay_slot := true }
    let rt := instRtNat inst
    let bgez := rt % 2 = 1
    let branch := (decide (toSigned (ReadReg s1 (instRs inst)) < 0)) ^^ (decide bgez)
    let s2 := if rt &&& 30 = 16 then
        { s1 with regs := Function.update s1.regs 31 s1.npc } else s1
    if branch then Branch s2 ((s2.pc + ((sext16 (instImm inst) <<< 2) % MASK32)) % MASK32) else s2
  | 2 =>
    let s1 := { s with next_is_branch_delay_slot := true }
    Branch s1 ((s1.pc &&& 4026531840) ||| (instTarget inst <<< 2))
  | 3 =>
    let s1 := { s with regs := Function.update s.regs 31 s.npc }
    let s2 := { s1 with next_is_branch_delay_slot := true }
    Branch s2 ((s2.pc &&& 4026531840) ||| (instTarget inst <<< 2))
  | 4 =>
    let s1 := { s with next_is_branch_delay_slot := true }
    if ReadReg s1 (instRs inst) = ReadReg s1 (instRt inst) then
      Branch s1 ((s1.pc + ((sext16 (instImm inst) <<< 2) % MASK32)) % MASK32) else s1
  | 5 =>
    let s1 := { s with next_is_branch_delay_slot := true }
    if ReadReg s1 (instRs inst) ≠ ReadReg s1 (instRt inst) then
      Branch s1 ((s1.pc + ((sext16 (instImm inst) <<< 2) % MASK32)) % MASK32) else s1
  | 6 =>
    let s1 := { s with next_is_branch_delay_slot := true }
    if toSigned (ReadReg s1 (instRs inst)) ≤ 0 then
      Branch s1 ((s1.pc + ((sext16 (instImm inst) <<< 2) % MASK32)) % MASK32) else s1
  | 7 =>
    let s1 := { s with next_is_branch_delay_slot := true }
    if 0 < toSigned (ReadReg s1 (instRs inst)) then
      Branch s1 ((s1.pc + ((sext16 (instImm inst) <<< 2) % MASK32)) % MASK32) else s1
  | 8 =>
    let old_value := ReadReg s (instRs inst)
    let add_value := sext16 (instImm inst)
    let new_value := (old_value + add_value) % MASK32
    if AddOverflow old_value add_value new_value then RaiseCur bus fuel Exc.Ov s
    else WriteReg s (instRt inst) new_value
  | 9 => WriteReg s (instRt inst) ((ReadReg s (instRs inst) + sext16 (instImm inst)) % MASK32)
  | 10 => WriteReg s (instRt inst)
      (if toSigned (ReadReg s (instRs inst)) < toSigned (sext16 (instImm inst)) then 1 else 0)
  | 11 => WriteReg s (instRt inst)
      (if ReadReg s (instRs inst) < sext16 (instImm inst) then 1 else 0)
  | 12 => WriteReg s (instRt inst) (ReadReg s (instRs inst) &&& instImm inst)
  | 13 => WriteReg s (instRt inst) (ReadReg s (instRs inst) ||| instImm inst)
  | 14 => WriteReg s (instRt inst) (ReadReg s (instRs inst) ^^^ instImm inst)
  | 15 => WriteReg s (instRt inst) ((instImm inst <<< 16) % MASK32)
  | 16 =>
    if InUserMode s ∧ ¬s.cop0.sr.CU0 then RaiseCur bus fuel Exc.CpU s
    else ExecuteCop0Instruction bus fuel s
  | 18 =>
    if InUserMode s ∧ ¬s.cop0.sr.CU2 then RaiseCur bus fuel Exc.CpU s
    else ExecuteCop2Instruction gi s
  | 32 =>
    let addr := (ReadReg s (instRs inst) + sext16 (instImm inst)) % MASK32
    let m := ReadMemoryByte bus fuel addr s
    match m.1 with
    | some v => WriteRegDelayed m.2 (instRt inst) (sext8 (v % 256))
    | none => m.2
  | 33 =>
    let addr := (ReadReg s (instRs inst) + sext16 (instImm inst)) % MASK32
    let m := ReadMemoryHalfWord bus fuel addr s
    match m.1 with
    | some v => WriteRegDelayed m.2 (instRt inst) (sext16 (v % 65536))
    | none => m.2
  | 34 =>
    let addr := (ReadReg s (instRs inst) + sext16 (instImm inst)) % MASK32
    let aligned_addr := addr - addr % 4
    let m := ReadMemoryWord bus fuel aligned_addr s
    match m.1 with
    | some aligned_value =>
      let existing_value := m.2.regs (instRt inst)
      let shift := (addr % 4) * 8
      let mask := 16777215 >>> shift
      let new_value := (existing_value &&& mask) |||
        ((aligned_value <<< (24 - shift)) % MASK32)
      WriteRegDelayed m.2 (instRt inst) new_value
    | none => m.2
  | 35 =>
    let addr := (ReadReg s (instRs inst) + sext16 (instImm inst)) % MASK32
    let m := ReadMemoryWord bus fuel addr s
    match m.1 with
    | some v => WriteRegDelayed m.2 (instRt inst) v
    | none => m.2
  | 36 =>
    let addr := (ReadReg s (instRs inst) + sext16 (instImm inst)) % MASK32
    let m := ReadMemoryByte bus fuel addr s
    match m.1 with
    | some v => WriteRegDelayed m.2 (instRt inst) (v % 256)
    | none => m.2
  | 37 =>
    let addr := (ReadReg s (instRs inst) + sext16 (instImm inst)) % MASK32
    let m := ReadMemoryHalfWord bus fuel addr s
    match m.1 with
    | some v => WriteRegDelayed m.2 (instRt inst) (v % 65536)
    | none => m.2
  | 38 =>
    let addr := (ReadReg s (instRs inst) + sext16 (instImm inst)) % MASK32
    let aligned_addr := addr - addr % 4
    let m := ReadMemoryWord bus fuel aligned_addr s
    match m.1 with
    | some aligned_value =>
      let existing_value := m.2.regs (instRt inst)
      let shift := (addr % 4) * 8
      let mask := (4294967040 <<< (24 - shift)) % MASK32
      let new_value := (existing_value &&& mask) ||| (aligned_value >>> shift)
      WriteRegDelayed m.2 (instRt inst) new_value
    | none => m.2
  | 40 =>
    let addr := (ReadReg s (instRs inst) + sext16 (instImm inst)) % MASK32
    WriteMemoryByte bus fuel addr (ReadReg s (instRt inst) % 256) s
  | 41 =>
    let addr := (ReadReg s (instRs inst) + sext16 (instImm inst)) % MASK32
    WriteMemoryHalfWord bus fuel addr (ReadReg s (instRt inst) % 65536) s
  | 42 =>
    let addr := (ReadReg s (instRs inst) + sext16 (instImm inst)) % MASK32
    let aligned_addr := addr - addr % 4
    let reg_value := ReadReg s (instRt inst)
    let shift := (addr % 4) * 8
    let m := ReadMemoryWord bus fuel aligned_addr s
    match m.1 with
    | some mem_value =>
      let mem_mask := (4294967040 <<< shift) % MASK32
      let new_value := (mem_value &&& mem_mask) ||| (reg_value >>> (24 - shift))
      WriteMemoryWord bus fuel aligned_addr new_value m.2
    | none => m.2
  | 43 =>
    let addr := (ReadReg s (instRs inst) + sext16 (instImm inst)) % MASK32
    WriteMemoryWord bus fuel addr (ReadReg s (instRt inst)) s
  | 44 =>
    let addr := (ReadReg s (instRs inst) + sext16 (instImm inst)) % MASK32
    let aligned_addr := addr - addr % 4
    let reg_value := ReadReg s (instRt inst)
    let shift := (addr % 4) * 8
    let m := ReadMemoryWord bus fuel aligned_addr s
    match m.1 with
    | some mem_value =>
      let mem_mask := 16777215 >>> (24 - shift)
      let new_value := (mem_value &&& mem_mask) ||| ((reg_value <<< shift) % MASK32)
      WriteMemoryWord bus fuel aligned_addr new_value m.2
    | none => m.2
  | 50 =>
    if InUserMode s ∧ ¬s.cop0.sr.CU2 then RaiseCur bus fuel Exc.CpU s
    else
      let addr := (ReadReg s (instRs inst) + sext16 (instImm inst)) % MASK32
      let m := ReadMemoryWord bus fuel addr s
      match m.1 with
      | some v => { m.2 with gte := gi.writeData m.2.gte (instRtNat inst) v }
      | none => m.2
  | 58 =>
    if InUserMode s ∧ ¬s.cop0.sr.CU2 then RaiseCur bus fuel Exc.CpU s
    else
      let addr := (ReadReg s (instRs inst) + sext16 (instImm inst)) % MASK32
      WriteMemoryWord bus fuel addr (gi.readData s.gte (instRtNat inst)) s
  | 17 => s
  | 19 => s
  | 48 => s
  | 49 => s
  | 51 => s
  | 56 => s
  | 57 => s
  | 59 => s
  | _ => RaiseCur bus fuel Exc.RI s

/-- Core::DispatchInterrupts: deferred when the upcoming instruction is a
COP2 op; otherwise an INT is raised when IEc is set and a pending, unmasked
interrupt bit exists in (CAUSE & SR) & 0xFF00. -/
def DispatchInterrupts (bus : Bus) (fuel : Nat) (s : CPUState G) :
    Bool × CPUState G :=
  if isCop2Inst s.next_instruction then (false, s)
  else if Nat.testBit s.cop0.sr.mode_bits 0 ∧
      ((causeBits s.cop0.cause &&& srBits s.cop0.sr) &&& 65280) ≠ 0 then
    (true, RaiseCur bus fuel Exc.INT s)
  else (false, s)

/-- One iteration of Core::Execute: charge ticks, roll the pipeline shadow
forward, dispatch interrupts, fetch, execute, then advance the load-delay
shadow.  An interrupt or a fetch fault skips the execute and the shadow
advance (the continue in the source). -/
def Step (gi : GTEIface G) (bus : Bus) (fuel : Nat) (s : CPUState G) : CPUState G :=
  let s1 := { s with
    pending_ticks := s.pending_ticks + 2
    downcount := s.downcount - 2
    current_instruction := s.next_instruction
    current_instruction_pc := s.pc
    current_in_branch_delay_slot := s.next_is_branch_delay_slot
    current_was_branch_taken := s.branch_was_taken
    next_is_branch_delay_slot := false
    branch_was_taken := false }
  let d := DispatchInterrupts bus fuel s1
  if d.1 then d.2
  else
    let f := FetchInstruction bus fuel d.2
    if f.1 then
      let s4 := ExecuteInstruction gi bus fuel f.2
      { s4 with
        load_delay_reg := s4.next_load_delay_reg
        next_load_delay_reg := none
        load_delay_old_value := s4.next_load_delay_old_value
        next_load_delay_old_value := 0 }
    else f.2

/-- Iterated CPU steps. -/
def StepN (gi : GTEIface G) (bus : Bus) (fuel : Nat) : Nat → CPUState G → CPUState G
  | 0, s => s
  | n + 1, s => StepN gi bus fuel n (Step gi bus fuel s)

/-- A trivial GTE collaborator over the unit state, used for concrete runs
of programs that contain no COP2 instructions. -/
def UnitGTE : GTEIface Unit :=
  { readData := fun _ _ => 0
    writeData := fun g _ _ => g
    readCtrl := fun _ _ => 0
    writeCtrl := fun g _ _ => g
    runInst := fun g _ => g }

/-- A bus on which every read returns the word 0 and every write succeeds. -/
def AllZeroBus : Bus :=
  { readByte := fun _ => some 0
    readHalf := fun _ => some 0
    readWord := fun _ => some 0
    writeByte := fun _ _ => true
    writeHalf := fun _ _ => true
    writeWord := fun _ _ => true }

/-- A concrete CPU state: all registers and COP0 state zero except PRID = 2,
with the given prefetched instruction, pc and npc, and register file. -/
def MkState (next pc npc : Nat) (rf : Fin 32 → Nat) : CPUState Unit :=
  { regs := rf
    pc := pc
    npc := npc
    hi := 0
    lo := 0
    cop0 :=
      { BPC := 0, BDA := 0, TAR := 0, BadVaddr := 0, BDAM := 0, BPCM := 0
        EPC := 0, PRID := 2
        sr := { mode_bits := 0, Im := 0, BEV := false, CU0 := false, CU2 := false }
        cause := { Excode := 0, Ip := 0, CE := 0, BT := false, BD := false }
        dcic := 0 }
    next_instruction := next
    current_instruction := 0
    current_instruction_pc := 0
    current_in_branch_delay_slot := false
    current_was_branch_taken := false
    next_is_branch_delay_slot := false
    branch_was_taken := false
    load_delay_reg := none
    load_delay_old_value := 0
    next_load_delay_reg := none
    next_load_delay_old_value := 0
    pending_ticks := 0
    downcount := 0
    gte := () }

/-- The all-zero CPU state (prefetched nop at pc 0). -/
def ZeroState : CPUState Unit := MkState 0 0 4 (fun _ => 0)

/-- Bus for the load-delay scenario: the word at 0 is 0x55 and the program
word at 0x104 is addu r5, r4, r0 (0x00802821). -/
def LoadDelayBus : Bus :=
  { readByte := fun _ => some 0
    readHalf := fun _ => some 0
    readWord := fun a => if a = 0 then some 0x55
      else if a = 0x104 then some 0x00802821 else some 0
    writeByte := fun _ _ => true
    writeHalf := fun _ _ => true
    writeWord := fun _ _ => true }

/-- Start state of the load-delay scenario: lw r4, 0(r0) (0x8C040000) is
prefetched at pc 0x100 and r4 holds 0xAA. -/
def LoadDelayState : CPUState Unit :=
  MkState 0x8C040000 0x100 0x104 (fun i => if i = 4 then 0xAA else 0)

/-- Bus for the divide-by-zero scenario: the program words at 0x104, 0x108
and 0x10C are div r1, r0 (0x0020001A), mflo r2 (0x00001012) and mfhi r3
(0x00001810). -/
def DivZeroBus : Bus :=
  { readByte := fun _ => some 0
    readHalf := fun _ => some 0
    readWord := fun a => if a = 0x104 then some 0x0020001A
      else if a = 0x108 then some 0x00001012
      else if a = 0x10C then some 0x00001810 else some 0
    writeByte := fun _ _ => true
    writeHalf := fun _ _ => true
    writeWord := fun _ _ => true }

/-- Start state of the divide-by-zero scenario: ori r1, r0, 10 (0x3401000A)
is prefetched at pc 0x100. -/
def DivZeroState : CPUState Unit := MkState 0x3401000A 0x100 0x104 (fun _ => 0)

/-- Start state of the overflow scenario: addi r1, r1, 1 (0x20210001) is
prefetched at pc 0x100 and r1 holds 0x7FFFFFFF. -/
def OverflowState : CPUState Unit :=
  MkState 0x20210001 0x100 0x104 (fun i => if i = 1 then 0x7FFFFFFF else 0)

end CPU

namespace Pad

/-- The serial command state machine's states (enum State). -/
inductive CState
  | Idle
  | GetStateIDMSB | GetStateButtonsLSB | GetStateButtonsMSB
  | GetStateRightAxisX | GetStateRightAxisY | GetStateLeftAxisX | GetStateLeftAxisY
  | ConfigModeIDMSB | ConfigModeSetMode
  | SetAnalogModeIDMSB | SetAnalogModeVal | SetAnalogModeSel
  | GetAnalogModeIDMSB
  | GetAnalogMode1 | GetAnalogMode2 | GetAnalogMode3
  | GetAnalogMode4 | GetAnalogMode5 | GetAnalogMode6
  | Command46IDMSB
  | Command461 | Command462 | Command463 | Command464 | Command465 | Command466
  | Command47IDMSB
  | Command471 | Command472 | Command473 | Command474 | Command475 | Command476
  | Command4CIDMSB | Command4CMode
  | Command4C1 | Command4C2 | Command4C3 | Command4C4 | Command4C5
  | UnlockRumbleIDMSB
  | GetSetRumble1 | GetSetRumble2 | GetSetRumble3
  | GetSetRumble4 | GetSetRumble5 | GetSetRumble6
  | Pad6Bytes | Pad5Bytes | Pad4Bytes | Pad3Bytes | Pad2Bytes | Pad1Byte
  deriving DecidableEq, Repr

/-- The analog controller state: mode flags, input state, rumble
configuration, motors, the FSM state, and the consumed settings view.
Axis order is LeftX=0, LeftY=1, RightX=2, RightY=3; motor index 0 is the
large motor.  button_state is the 16-bit active-low mask. -/
structure Controller where
  state : CState
  analog_mode : Bool
  configuration_mode : Bool
  analog_locked : Bool
  analog_toggle_queued : Bool
  rumble_unlocked : Bool
  legacy_rumble_unlocked : Bool
  button_state : Nat
  axis_state : Fin 4 → Nat
  motor_large : Nat
  motor_small : Nat
  rumble_config : Fin 6 → Nat
  large_motor_index : Int
  small_motor_index : Int
  command_param : Nat
  force_analog_on_reset : Bool
  disable_analog_mode_forcing : Bool
  analog_dpad_in_digital_mode : Bool

/-- AnalogController::GetID: 0x5AF3 in configuration mode, else 0x5A73 when
analog, 0x5A41 when digital. -/
def GetID (c : Controller) : Nat :=
  if c.configuration_mode then 23283
  else if c.analog_mode then 23155 else 23105

/-- AnalogController::SetAnalogMode (the OSD message is host-side only). -/
def SetAnalogMode (c : Controller) (enabled : Bool) : Controller :=
  if c.analog_mode == enabled then c else { c with analog_mode := enabled }

/-- AnalogController::SetMotorState: motor 0 is the large motor. -/
def SetMotorState (c : Controller) (motor value : Nat) : Controller :=
  if motor = 0 then { c with motor_large := value } else { c with motor_small := value }

/-- AnalogController::ResetRumbleConfig. -/
def ResetRumbleConfig (c : Controller) : Controller :=
  let c1 := { c with
    legacy_rumble_unlocked := false
    rumble_unlocked := false
    rumble_config := fun _ => 255
    large_motor_index := -1
    small_motor_index := -1 }
  SetMotorState (SetMotorState c1 0 0) 1 0

/-- AnalogController::SetMotorStateForConfigIndex: the small motor is on/off
from the low bit; the large motor takes the byte as amplitude. -/
def SetMotorStateForConfigIndex (c : Controller) (index : Int) (value : Nat) :
    Controller :=
  if c.small_motor_index == index then
    SetMotorState c 1 (if value &&& 1 ≠ 0 then 255 else 0)
  else if c.large_motor_index == index then
    SetMotorState c 0 value
  else c

/-- AnalogController::Reset: Idle, digital, out of configuration mode, motors
and rumble configuration cleared; analog mode is re-forced from settings
unless globally disabled (the OSD messages are host-side only). -/
def Reset (c : Controller) : Controller :=
  let c1 := { c with
    state := CState.Idle
    analog_mode := false
    configuration_mode := false
    command_param := 0 }
  let c2 := SetMotorState (SetMotorState c1 0 0) 1 0
  let c3 := ResetRumbleConfig c2
  if c3.force_analog_on_reset then
    if c3.disable_analog_mode_forcing then c3 else SetAnalogMode c3 true
  else c3

/-- AnalogController::GetExtraButtonMaskLSB.  Modelled from the spec for the
Button enum numbering of the missing header (declaration order Select, L3,
R3, Start, Up, Right, Down, Left, ...): Up=4, Right=5, Down=6, Left=7.  The
thresholds are u8(128.0 - 127.0 * 0.5) = 64 and u8(128.0 + 127.0 * 0.5) =
191. -/
def GetExtraButtonMaskLSB (c : Controller) : Nat :=
  if ¬c.analog_dpad_in_digital_mode ∨ c.analog_mode ∨ c.configuration_mode then 255
  else
    let left : Nat := if c.axis_state 0 ≤ 64 then 1 else 0
    let right : Nat := if 191 ≤ c.axis_state 0 then 1 else 0
    let up : Nat := if c.axis_state 1 ≤ 64 then 1 else 0
    let down : Nat := if 191 ≤ c.axis_state 1 then 1 else 0
    255 ^^^ ((left <<< 7) ||| (right <<< 5) ||| (up <<< 4) ||| (down <<< 6))

/-- Rumble side effect of the first poll data byte (GetStateButtonsLSB):
configured motor drive, legacy unlock latch, or small-motor off. -/
def ButtonsLSBEffect (c : Controller) (data_in : Nat) : Controller :=
  if c.rumble_unlocked then SetMotorStateForConfigIndex c 0 data_in
  else if 64 ≤ data_in ∧ data_in ≤ 127 then { c with legacy_rumble_unlocked := true }
  else SetMotorState c 1 0

/-- Rumble side effect of the second poll data byte (GetStateButtonsMSB). -/
def ButtonsMSBEffect (c : Controller) (data_in : Nat) : Controller :=
  if c.rumble_unlocked then SetMotorStateForConfigIndex c 1 data_in
  else if c.legacy_rumble_unlocked then
    SetMotorState { c with legacy_rumble_unlocked := false } 1
      (if data_in &&& 1 ≠ 0 then 255 else 0)
  else c

/-- Rumble side effect of the axis poll bytes (indices 2..5). -/
def AxisEffect (c : Controller) (index : Int) (data_in : Nat) : Controller :=
  if c.rumble_unlocked then SetMotorStateForConfigIndex c index data_in else c

/-- One slot of the 0x4D rumble-configuration swap (REPLY_RUMBLE_CONFIG):
emit the old slot value, store the incoming byte, and record a motor index
when the byte is 0x00 or 0x01. -/
def RumbleConfigStep (c : Controller) (i : Fin 6) (data_in : Nat) : Controller :=
  let c1 := { c with rumble_config := Function.update c.rumble_config i data_in }
  if data_in = 0 then { c1 with small_motor_index := (i : Int) }
  else if data_in = 1 then { c1 with large_motor_index := (i : Int) }
  else c1

/-- AnalogController::Transfer: one byte of the serial exchange, returning
the post state, data_out and the ack flag. -/
def Transfer (c : Controller) (data_in : Nat) : Controller × Nat × Bool :=
  match c.state with
  | .Idle =>
    if data_in = 66 then
      ({ c with state := .GetStateIDMSB }, GetID c % 256, true)
    else if data_in = 67 then
      ({ c with state := .ConfigModeIDMSB }, GetID c % 256, true)
    else if c.configuration_mode ∧ data_in = 68 then
      ({ c with state := .SetAnalogModeIDMSB }, GetID c % 256, true)
    else if c.configuration_mode ∧ data_in = 69 then
      ({ c with state := .GetAnalogModeIDMSB }, GetID c % 256, true)
    else if c.configuration_mode ∧ data_in = 70 then
      ({ c with state := .Command46IDMSB }, GetID c % 256, true)
    else if c.configuration_mode ∧ data_in = 71 then
      ({ c with state := .Command47IDMSB }, GetID c % 256, true)
    else if c.configuration_mode ∧ data_in = 76 then
      ({ c with state := .Command4CIDMSB }, GetID c % 256, true)
    else if c.configuration_mode ∧ data_in = 77 then
      ({ c with
          state := .UnlockRumbleIDMSB
          rumble_unlocked := true
          large_motor_index := -1
          small_motor_index := -1 }, GetID c % 256, true)
    else
      (c, 255, data_in == 1)
  | .GetStateIDMSB => ({ c with state := .GetStateButtonsLSB }, (GetID c >>> 8) % 256, true)
  | .GetStateButtonsLSB =>
    let c1 := ButtonsLSBEffect c data_in
    ({ c1 with state := .GetStateButtonsMSB },
      (c1.button_state % 256) &&& GetExtraButtonMaskLSB c1, true)
  | .GetStateButtonsMSB =>
    let c1 := ButtonsMSBEffect c data_in
    ({ c1 with state := if c1.analog_mode || c1.configuration_mode then
        CState.GetStateRightAxisX else CState.Idle },
      (c1.button_state >>> 8) % 256, c1.analog_mode || c1.configuration_mode)
  | .GetStateRightAxisX =>
    let c1 := AxisEffect c 2 data_in
    ({ c1 with state := .GetStateRightAxisY }, c1.axis_state 2 % 256, true)
  | .GetStateRightAxisY =>
    let c1 := AxisEffect c 3 data_in
    ({ c1 with state := .GetStateLeftAxisX }, c1.axis_state 3 % 256, true)
  | .GetStateLeftAxisX =>
    let c1 := AxisEffect c 4 data_in
    ({ c1 with state := .GetStateLeftAxisY }, c1.axis_state 0 % 256, true)
  | .GetStateLeftAxisY =>
    let c1 := AxisEffect c 5 data_in
    ({ c1 with state := .Idle }, c1.axis_state 1 % 256, false)
  | .ConfigModeIDMSB => ({ c with state := .ConfigModeSetMode }, (GetID c >>> 8) % 256, true)
  | .ConfigModeSetMode =>
    let prev := c.configuration_mode
    let c1 := { c with configuration_mode := data_in == 1 }
    ({ c1 with state := if prev then CState.Pad5Bytes else CState.GetStateButtonsMSB },
      if prev then 0 else c1.button_state % 256, true)
  | .SetAnalogModeIDMSB => ({ c with state := .SetAnalogModeVal }, (GetID c >>> 8) % 256, true)
  | .SetAnalogModeVal =>
    let c1 := if data_in = 0 ∨ data_in = 1 then SetAnalogMode c (data_in == 1) else c
    ({ c1 with state := .SetAnalogModeSel }, 0, true)
  | .SetAnalogModeSel =>
    let c1 := if data_in = 2 ∨ data_in = 3 then { c with analog_locked := data_in == 3 } else c
    ({ c1 with state := .Pad4Bytes }, 0, true)
  | .GetAnalogModeIDMSB => ({ c with state := .GetAnalogMode1 }, (GetID c >>> 8) % 256, true)
  | .GetAnalogMode1 => ({ c with state := .GetAnalogMode2 }, 1, true)
  | .GetAnalogMode2 => ({ c with state := .GetAnalogMode3 }, 2, true)
  | .GetAnalogMode3 => ({ c with state := .GetAnalogMode4 }, cond c.analog_mode 1 0, true)
  | .GetAnalogMode4 => ({ c with state := .GetAnalogMode5 }, 2, true)
  | .GetAnalogMode5 => ({ c with state := .GetAnalogMode6 }, 1, true)
  | .GetAnalogMode6 => ({ c with state := .Idle }, 0, false)
  | .Command46IDMSB => ({ c with state := .Command461 }, (GetID c >>> 8) % 256, true)
  | .Command461 => ({ c with state := .Command462, command_param := data_in }, 0, true)
  | .Command462 => ({ c with state := .Command463 }, 0, true)
  | .Command463 => ({ c with state := .Command464 }, 1, true)
  | .Command464 => ({ c with state := .Command465 }, if c.command_param = 1 then 1 else 2, true)
  | .Command465 => ({ c with state := .Command466 }, if c.command_param = 1 then 1 else 0, true)
  | .Command466 => ({ c with state := .Idle }, if c.command_param = 1 then 20 else 10, false)
  | .Command47IDMSB => ({ c with state := .Command471 }, (GetID c >>> 8) % 256, true)
  | .Command471 => ({ c with state := .Command472 }, 0, true)
  | .Command472 => ({ c with state := .Command473 }, 0, true)
  | .Command473 => ({ c with state := .Command474 }, 2, true)
  | .Command474 => ({ c with state := .Command475 }, 0, true)
  | .Command475 => ({ c with state := .Command476 }, 1, true)
  | .Command476 => ({ c with state := .Idle }, 0, false)
  | .Command4CIDMSB => ({ c with state := .Command4CMode }, (GetID c >>> 8) % 256, true)
  | .Command4CMode => ({ c with state := .Command4C1, command_param := data_in }, 0, true)
  | .Command4C1 => ({ c with state := .Command4C2 }, 0, true)
  | .Command4C2 => ({ c with state := .Command4C3 }, 0, true)
  | .Command4C3 =>
    ({ c with state := .Command4C4 },
      if c.command_param = 0 then 4 else if c.command_param = 1 then 7 else 0, true)
  | .Command4C4 => ({ c with state := .Command4C5 }, 0, true)
  | .Command4C5 => ({ c with state := .Idle }, 0, false)
  | .UnlockRumbleIDMSB => ({ c with state := .GetSetRumble1 }, (GetID c >>> 8) % 256, true)
  | .GetSetRumble1 =>
    ({ RumbleConfigStep c 0 data_in with state := .GetSetRumble2 }, c.rumble_config 0, true)
  | .GetSetRumble2 =>
    ({ RumbleConfigStep c 1 data_in with state := .GetSetRumble3 }, c.rumble_config 1, true)
  | .GetSetRumble3 =>
    ({ RumbleConfigStep c 2 data_in with state := .GetSetRumble4 }, c.rumble_config 2, true)
  | .GetSetRumble4 =>
    ({ RumbleConfigStep c 3 data_in with state := .GetSetRumble5 }, c.rumble_config 3, true)
  | .GetSetRumble5 =>
    ({ RumbleConfigStep c 4 data_in with state := .GetSetRumble6 }, c.rumble_config 4, true)
  | .GetSetRumble6 =>
    let c1 := RumbleConfigStep c 5 data_in
    let c2 := if c1.large_motor_index = -1 then SetMotorState c1 0 0 else c1
    let c3 := if c2.small_motor_index = -1 then SetMotorState c2 1 0 else c2
    let c4 := if c3.large_motor_index = -1 ∧ c3.small_motor_index = -1 then
        { c3 with rumble_unlocked := false } else c3
    ({ c4 with state := .Idle }, c.rumble_config 5, false)
  | .Pad6Bytes => ({ c with state := .Pad5Bytes }, 0, true)
  | .Pad5Bytes => ({ c with state := .Pad4Bytes }, 0, true)
  | .Pad4Bytes => ({ c with state := .Pad3Bytes }, 0, true)
  | .Pad3Bytes => ({ c with state := .Pad2Bytes }, 0, true)
  | .Pad2Bytes => ({ c with state := .Pad1Byte }, 0, true)
  | .Pad1Byte => ({ c with state := .Idle }, 0, false)

/-- Run a sequence of transfers, collecting outputs and ack flags. -/
def RunTransfers (c : Controller) : List Nat → Controller × List Nat × List Bool
  | [] => (c, [], [])
  | b :: rest =>
    let t := Transfer c b
    let r := RunTransfers t.1 rest
    (r.1, t.2.1 :: r.2.1, t.2.2 :: r.2.2)

/-- The controller as constructed (axis centers 0x80, all buttons released,
all settings at their defaults) followed by Reset. -/
def InitController : Controller :=
  Reset
    { state := CState.Idle
      analog_mode := false
      configuration_mode := false
      analog_locked := false
      analog_toggle_queued := false
      rumble_unlocked := false
      legacy_rumble_unlocked := false
      button_state := 65535
      axis_state := fun _ => 128
      motor_large := 0
      motor_small := 0
      rumble_config := fun _ => 255
      large_motor_index := -1
      small_motor_index := -1
      command_param := 0
      force_analog_on_reset := false
      disable_analog_mode_forcing := false
      analog_dpad_in_digital_mode := false }

/-- One 0x4D command cycle: the command byte, the ID-MSB pad byte, then the
six rumble-configuration payload bytes. -/
def RumbleCycle : List Nat := [77, 0, 255, 255, 255, 255, 255, 255]

/-- Six successive all-0xFF 0x4D command cycles. -/
def SixRumbleCycles : List Nat :=
  RumbleCycle ++ RumbleCycle ++ RumbleCycle ++ RumbleCycle ++ RumbleCycle ++ RumbleCycle

end Pad

namespace Pad

section PreservationLemmas

variable (c : Controller) (d : Nat) (i : Int)

@[simp] theorem buttonsLSBEffect_state : (ButtonsLSBEffect c d).state = c.state := by
  unfold ButtonsLSBEffect SetMotorStateForConfigIndex SetMotorState
  repeat' split
  all_goals rfl

@[simp] theorem buttonsLSBEffect_analog_mode :
    (ButtonsLSBEffect c d).analog_mode = c.analog_mode := by
  unfold ButtonsLSBEffect SetMotorStateForConfigIndex SetMotorState
  repeat' split
  all_goals rfl

@[simp] theorem buttonsLSBEffect_configuration_mode :
    (ButtonsLSBEffect c d).configuration_mode = c.configuration_mode := by
  unfold ButtonsLSBEffect SetMotorStateForConfigIndex SetMotorState
  repeat' split
  all_goals rfl

@[simp] theorem buttonsLSBEffect_button_state :
    (ButtonsLSBEffect c d).button_state = c.button_state := by
  unfold ButtonsLSBEffect SetMotorStateForConfigIndex SetMotorState
  repeat' split
  all_goals rfl

@[simp] theorem buttonsLSBEffect_axis_state :
    (ButtonsLSBEffect c d).axis_state = c.axis_state := by
  unfold ButtonsLSBEffect SetMotorStateForConfigIndex SetMotorState
  repeat' split
  all_goals rfl

@[simp] theorem buttonsLSBEffect_dpad :
    (ButtonsLSBEffect c d).analog_dpad_in_digital_mode = c.analog_dpad_in_digital_mode := by
  unfold ButtonsLSBEffect SetMotorStateForConfigIndex SetMotorState
  repeat' split
  all_goals rfl

@[simp] theorem buttonsMSBEffect_state : (ButtonsMSBEffect c d).state = c.state := by
  unfold ButtonsMSBEffect SetMotorStateForConfigIndex SetMotorState
  repeat' split
  all_goals rfl

@[simp] theorem buttonsMSBEffect_analog_mode :
    (ButtonsMSBEffect c d).analog_mode = c.analog_mode := by
  unfold ButtonsMSBEffect SetMotorStateForConfigIndex SetMotorState
  repeat' split
  all_goals rfl

@[simp] theorem buttonsMSBEffect_configuration_mode :
    (ButtonsMSBEffect c d).configuration_mode = c.configuration_mode := by
  unfold ButtonsMSBEffect SetMotorStateForConfigIndex SetMotorState
  repeat' split
  all_goals rfl

@[simp] theorem buttonsMSBEffect_button_state :
    (ButtonsMSBEffect c d).button_state = c.button_state := by
  unfold ButtonsMSBEffect SetMotorStateForConfigIndex SetMotorState
  repeat' split
  all_goals rfl

@[simp] theorem buttonsMSBEffect_axis_state :
    (ButtonsMSBEffect c d).axis_state = c.axis_state := by
  unfold ButtonsMSBEffect SetMotorStateForConfigIndex SetMotorState
  repeat' split
  all_goals rfl

@[simp] theorem buttonsMSBEffect_dpad :
    (ButtonsMSBEffect c d).analog_dpad_in_digital_mode = c.analog_dpad_in_digital_mode := by
  unfold ButtonsMSBEffect SetMotorStateForConfigIndex SetMotorState
  repeat' split
  all_goals rfl

@[simp] theorem axisEffect_state : (AxisEffect c i d).state = c.state := by
  unfold AxisEffect SetMotorStateForConfigIndex SetMotorState
  repeat' split
  all_goals rfl

@[simp] theorem axisEffect_analog_mode : (AxisEffect c i d).analog_mode = c.analog_mode := by
  unfold AxisEffect SetMotorStateForConfigIndex SetMotorState
  repeat' split
  all_goals rfl

@[simp] theorem axisEffect_configuration_mode :
    (AxisEffect c i d).configuration_mode = c.configuration_mode := by
  unfold AxisEffect SetMotorStateForConfigIndex SetMotorState
  repeat' split
  all_goals rfl

@[simp] theorem axisEffect_button_state :
    (AxisEffect c i d).button_state = c.button_state := by
  unfold AxisEffect SetMotorStateForConfigIndex SetMotorState
  repeat' split
  all_goals rfl

@[simp] theorem axisEffect_axis_state : (AxisEffect c i d).axis_state = c.axis_state := by
  unfold AxisEffect SetMotorStateForConfigIndex SetMotorState
  repeat' split
  all_goals rfl

@[simp] theorem axisEffect_dpad :
    (AxisEffect c i d).analog_dpad_in_digital_mode = c.analog_dpad_in_digital_mode := by
  unfold AxisEffect SetMotorStateForConfigIndex SetMotorState
  repeat' split
  all_goals rfl

@[simp] theorem extraMask_buttonsLSBEffect :
    GetExtraButtonMaskLSB (ButtonsLSBEffect c d) = GetExtraButtonMaskLSB c := by
  unfold GetExtraButtonMaskLSB
  simp

end PreservationLemmas

end Pad

namespace Pad

/-- C9: for every prior controller state, Reset leaves analog_locked,
analog_toggle_queued, button_state and axis_state (and the settings view)
unchanged; it modifies only state (forced to Idle), analog_mode,
configuration_mode, command_param, the two motor intensities, and the rumble
configuration (rumble_config, both motor indices, rumble_unlocked,
legacy_rumble_unlocked). -/
theorem C9_reset_frame (c : Controller) :
    (Reset c).analog_locked = c.analog_locked ∧
    (Reset c).analog_toggle_queued = c.analog_toggle_queued ∧
    (Reset c).button_state = c.button_state ∧
    (Reset c).axis_state = c.axis_state ∧
    (Reset c).force_analog_on_reset = c.force_analog_on_reset ∧
    (Reset c).disable_analog_mode_forcing = c.disable_analog_mode_forcing ∧
    (Reset c).analog_dpad_in_digital_mode = c.analog_dpad_in_digital_mode ∧
    (Reset c).state = CState.Idle ∧
    (Reset c).configuration_mode = false ∧
    (Reset c).command_param = 0 ∧
    (Reset c).motor_large = 0 ∧
    (Reset c).motor_small = 0 ∧
    (Reset c).rumble_config = (fun _ => 255) ∧
    (Reset c).large_motor_index = -1 ∧
    (Reset c).small_motor_index = -1 ∧
    (Reset c).rumble_unlocked = false ∧
    (Reset c).legacy_rumble_unlocked = false := by
  unfold Reset ResetRumbleConfig SetMotorState SetAnalogMode
  by_cases h1 : c.force_analog_on_reset = true <;>
    by_cases h2 : c.disable_analog_mode_forcing = true <;>
      simp [h1, h2]

/-- C10: each of the configuration-only command bytes 0x44, 0x45, 0x46,
0x47, 0x4C, 0x4D presented in Idle while configuration_mode is false is
treated exactly like an unknown byte: data_out 0xFF, ack false, and the
controller state (all fields) unchanged. -/
theorem C10_config_commands_ignored_outside_config (c : Controller) (b : Nat)
    (hs : c.state = CState.Idle) (hc : c.configuration_mode = false)
    (hb : b = 68 ∨ b = 69 ∨ b = 70 ∨ b = 71 ∨ b = 76 ∨ b = 77) :
    Transfer c b = (c, 255, false) := by
  obtain ⟨st, am, cm, al, atq, ru, lru, bs, ax, ml, ms, rc, lmi, smi, cp, far, dam, adp⟩ := c
  simp only at hs hc
  subst hs hc
  rcases hb with rfl | rfl | rfl | rfl | rfl | rfl <;> rfl

/-- Witness for C10 at the freshly reset controller and byte 0x44. -/
theorem C10_witness :
    Transfer InitController 68 = (InitController, 255, false) :=
  C10_config_commands_ignored_outside_config InitController 68 rfl rfl (Or.inl rfl)

end Pad

namespace Pad

/-- C7: a 0x42 poll frame started in Idle returns exactly 4 data bytes (ID
LSB, ID MSB, buttons LSB, buttons MSB) when analog_mode and
configuration_mode are both false, and exactly 8 (adding RightX, RightY,
LeftX, LeftY) when either is true; every byte acks except the final byte,
and the state returns to Idle. -/
theorem C7_poll_frame (c : Controller) (i1 i2 i3 i4 i5 i6 i7 : Nat)
    (hs : c.state = CState.Idle) :
    (c.analog_mode = false → c.configuration_mode = false →
      (RunTransfers c [66, i1, i2, i3]).2.1 =
        [GetID c % 256, (GetID c >>> 8) % 256,
          (c.button_state % 256) &&& GetExtraButtonMaskLSB c,
          (c.button_state >>> 8) % 256] ∧
      (RunTransfers c [66, i1, i2, i3]).2.2 = [true, true, true, false] ∧
      (RunTransfers c [66, i1, i2, i3]).1.state = CState.Idle) ∧
    ((c.analog_mode = true ∨ c.configuration_mode = true) →
      (RunTransfers c [66, i1, i2, i3, i4, i5, i6, i7]).2.1 =
        [GetID c % 256, (GetID c >>> 8) % 256,
          (c.button_state % 256) &&& GetExtraButtonMaskLSB c,
          (c.button_state >>> 8) % 256,
          c.axis_state 2 % 256, c.axis_state 3 % 256,
          c.axis_state 0 % 256, c.axis_state 1 % 256] ∧
      (RunTransfers c [66, i1, i2, i3, i4, i5, i6, i7]).2.2 =
        [true, true, true, true, true, true, true, false] ∧
      (RunTransfers c [66, i1, i2, i3, i4, i5, i6, i7]).1.state = CState.Idle) := by
  obtain ⟨st, am, cm, al, atq, ru, lru, bs, ax, ml, ms, rc, lmi, smi, cp, far, dam, adp⟩ := c
  simp only at hs
  subst hs
  constructor
  · intro ham hcm
    simp only at ham hcm
    subst ham hcm
    simp [RunTransfers, Transfer, GetID, GetExtraButtonMaskLSB]
  · intro h
    rcases h with ham | hcm
    · simp only at ham
      subst ham
      simp [RunTransfers, Transfer, GetID, GetExtraButtonMaskLSB]
    · simp only at hcm
      subst hcm
      simp [RunTransfers, Transfer, GetID, GetExtraButtonMaskLSB]

/-- Witness for C7 at the freshly reset (digital-mode) controller, and at
the same controller switched to analog mode. -/
theorem C7_witness :
    ((RunTransfers InitController [66, 0, 0, 0]).2.2 = [true, true, true, false] ∧
      (RunTransfers InitController [66, 0, 0, 0]).1.state = CState.Idle) ∧
    ((RunTransfers { InitController with analog_mode := true }
        [66, 0, 0, 0, 0, 0, 0, 0]).2.2 =
        [true, true, true, true, true, true, true, false] ∧
      (RunTransfers { InitController with analog_mode := true }
        [66, 0, 0, 0, 0, 0, 0, 0]).1.state = CState.Idle) :=
  ⟨⟨((C7_poll_frame InitController 0 0 0 0 0 0 0 rfl).1 rfl rfl).2.1,
    ((C7_poll_frame InitController 0 0 0 0 0 0 0 rfl).1 rfl rfl).2.2⟩,
   ⟨((C7_poll_frame { InitController with analog_mode := true }
        0 0 0 0 0 0 0 rfl).2 (Or.inl rfl)).2.1,
    ((C7_poll_frame { InitController with analog_mode := true }
        0 0 0 0 0 0 0 rfl).2 (Or.inl rfl)).2.2⟩⟩

end Pad

namespace Pad

/-- C8: a completed 0x4D cycle whose six payload bytes are none of 0x00/0x01
leaves both motor indices at -1 and clears rumble_unlocked; concretely, six
successive all-0xFF 0x4D cycles from the post-reset state (and likewise from
the post-reset state with configuration mode entered, where the cycles
actually execute) leave rumble_config all 0xFF, both motor indices -1, and
rumble_unlocked false. -/
theorem C8_rumble_unlock_cleared (c : Controller) (x p1 p2 p3 p4 p5 p6 : Nat)
    (hs : c.state = CState.Idle) (hc : c.configuration_mode = true)
    (h1 : p1 ≠ 0 ∧ p1 ≠ 1) (h2 : p2 ≠ 0 ∧ p2 ≠ 1) (h3 : p3 ≠ 0 ∧ p3 ≠ 1)
    (h4 : p4 ≠ 0 ∧ p4 ≠ 1) (h5 : p5 ≠ 0 ∧ p5 ≠ 1) (h6 : p6 ≠ 0 ∧ p6 ≠ 1) :
    ((RunTransfers c [77, x, p1, p2, p3, p4, p5, p6]).1.large_motor_index = -1 ∧
     (RunTransfers c [77, x, p1, p2, p3, p4, p5, p6]).1.small_motor_index = -1 ∧
     (RunTransfers c [77, x, p1, p2, p3, p4, p5, p6]).1.rumble_unlocked = false) ∧
    ((RunTransfers InitController SixRumbleCycles).1.rumble_unlocked = false ∧
     (RunTransfers InitController SixRumbleCycles).1.large_motor_index = -1 ∧
     (RunTransfers InitController SixRumbleCycles).1.small_motor_index = -1 ∧
     ∀ i : Fin 6, (RunTransfers InitController SixRumbleCycles).1.rumble_config i = 255) ∧
    ((RunTransfers { InitController with configuration_mode := true }
        SixRumbleCycles).1.rumble_unlocked = false ∧
     (RunTransfers { InitController with configuration_mode := true }
        SixRumbleCycles).1.large_motor_index = -1 ∧
     (RunTransfers { InitController with configuration_mode := true }
        SixRumbleCycles).1.small_motor_index = -1 ∧
     ∀ i : Fin 6, (RunTransfers { InitController with configuration_mode := true }
        SixRumbleCycles).1.rumble_config i = 255) := by
  refine ⟨?_, by decide, by decide⟩
  obtain ⟨st, am, cm, al, atq, ru, lru, bs, ax, ml, ms, rc, lmi, smi, cp, far, dam, adp⟩ := c
  simp only at hs hc
  subst hs hc
  simp [RunTransfers, Transfer, RumbleConfigStep, SetMotorState,
    h1.1, h1.2, h2.1, h2.2, h3.1, h3.2, h4.1, h4.2, h5.1, h5.2, h6.1, h6.2]

/-- Witness for C8: a completed all-0xFF 0x4D cycle in configuration mode
leaves both indices -1 and rumble locked. -/
theorem C8_witness :
    (RunTransfers { InitController with configuration_mode := true }
      [77, 0, 255, 255, 255, 255, 255, 255]).1.rumble_unlocked = false :=
  ((C8_rumble_unlock_cleared { InitController with configuration_mode := true }
    0 255 255 255 255 255 255 rfl rfl
    (by norm_num) (by norm_num) (by norm_num)
    (by norm_num) (by norm_num) (by norm_num)).1).2.2

/-- C6 (amended): in a 0x43 frame the byte after the two ID bytes returns
0x00 when the controller was already in configuration mode — and only then
is the rest of the frame drained with five 0x00 pad bytes (ack true until
the final byte) — and the low byte of button_state otherwise, after which
the frame continues like a poll frame (buttons MSB, then the axis bytes when
the newly written mode is analog or configuration).  For the CTRL-S1 frame
from reset the outputs are 0xFF, 0x41, 0x5A, 0xFF, 0xFF, 0x80, 0x80, 0x80
and configuration_mode is true afterwards. -/
theorem C6_config_mode_frame (c : Controller) (d1 d2 d3 d4 d5 d6 : Nat)
    (hs : c.state = CState.ConfigModeSetMode) :
    (c.configuration_mode = true →
      (RunTransfers c [d1, d2, d3, d4, d5, d6]).2.1 = [0, 0, 0, 0, 0, 0] ∧
      (RunTransfers c [d1, d2, d3, d4, d5, d6]).2.2 =
        [true, true, true, true, true, false] ∧
      (RunTransfers c [d1, d2, d3, d4, d5, d6]).1.state = CState.Idle ∧
      (RunTransfers c [d1, d2, d3, d4, d5, d6]).1.configuration_mode = (d1 == 1)) ∧
    (c.configuration_mode = false →
      (Transfer c d1).2.1 = c.button_state % 256 ∧
      (Transfer c d1).2.2 = true ∧
      (Transfer c d1).1.state = CState.GetStateButtonsMSB ∧
      (Transfer c d1).1.configuration_mode = (d1 == 1)) ∧
    ((RunTransfers InitController [1, 67, 0, 1, 0, 0, 0, 0]).2.1 =
      [255, 65, 90, 255, 255, 128, 128, 128] ∧
     (RunTransfers InitController [1, 67, 0, 1, 0, 0, 0, 0]).1.configuration_mode = true) := by
  refine ⟨?_, ?_, by decide⟩
  · intro hc
    obtain ⟨st, am, cm, al, atq, ru, lru, bs, ax, ml, ms, rc, lmi, smi, cp, far, dam, adp⟩ := c
    simp only at hs hc
    subst hs hc
    simp [RunTransfers, Transfer]
  · intro hc
    obtain ⟨st, am, cm, al, atq, ru, lru, bs, ax, ml, ms, rc, lmi, smi, cp, far, dam, adp⟩ := c
    simp only at hs hc
    subst hs hc
    simp [Transfer]

/-- Counterexample to C6 as stated: for the CTRL-S1 frame from reset, the
bytes after buttons MSB are the axis centers 0x80, not 0x00 pad bytes. -/
theorem C6_counterexample :
    (RunTransfers InitController [1, 67, 0, 1, 0, 0, 0, 0]).2.1 ≠
      [255, 65, 90, 255, 255, 0, 0, 0] := by decide

/-- Witness for C6 at a controller sitting in ConfigModeSetMode inside
configuration mode: the remaining six bytes are all-zero pad output. -/
theorem C6_witness :
    (RunTransfers { InitController with
      state := CState.ConfigModeSetMode, configuration_mode := true }
      [0, 0, 0, 0, 0, 0]).2.1 = [0, 0, 0, 0, 0, 0] :=
  ((C6_config_mode_frame { InitController with
      state := CState.ConfigModeSetMode, configuration_mode := true }
    0 0 0 0 0 0 rfl).1 rfl).1

end Pad

namespace CPU

variable {G : Type}

@[simp] theorem raiseCore_regs (e : Exc) (epc : Nat) (bd bt : Bool) (ce : Nat)
    (s : CPUState G) : (RaiseCore e epc bd bt ce s).regs = s.regs := by
  unfold RaiseCore
  repeat' split
  all_goals rfl

@[simp] theorem flushPrep_regs (s : CPUState G) : (FlushPrep s).regs = s.regs := rfl

theorem fetchInstruction_regs (bus : Bus) (fuel : Nat) (s : CPUState G) :
    ((FetchInstruction bus fuel s).2).regs = s.regs := by
  induction fuel generalizing s with
  | zero =>
    unfold FetchInstruction
    repeat' split
    all_goals try simp
    all_goals (exfalso; omega)
  | succ f ih =>
    unfold FetchInstruction
    repeat' split
    all_goals try simp
    all_goals
      (rename_i f2 heq
       obtain rfl : f2 = f := by omega
       simp [ih])

@[simp] theorem raiseException_regs (bus : Bus) (fuel : Nat) (e : Exc) (epc : Nat)
    (bd bt : Bool) (ce : Nat) (s : CPUState G) :
    (RaiseException bus fuel e epc bd bt ce s).regs = s.regs := by
  unfold RaiseException
  simp [fetchInstruction_regs]

@[simp] theorem raiseCur_regs (bus : Bus) (fuel : Nat) (e : Exc) (s : CPUState G) :
    (RaiseCur bus fuel e s).regs = s.regs := by
  unfold RaiseCur
  simp

@[simp] theorem readMemoryByte_regs (bus : Bus) (fuel addr : Nat) (s : CPUState G) :
    ((ReadMemoryByte bus fuel addr s).2).regs = s.regs := by
  unfold ReadMemoryByte
  repeat' split
  all_goals simp

@[simp] theorem readMemoryHalfWord_regs (bus : Bus) (fuel addr : Nat) (s : CPUState G) :
    ((ReadMemoryHalfWord bus fuel addr s).2).regs = s.regs := by
  unfold ReadMemoryHalfWord
  repeat' split
  all_goals simp

@[simp] theorem readMemoryWord_regs (bus : Bus) (fuel addr : Nat) (s : CPUState G) :
    ((ReadMemoryWord bus fuel addr s).2).regs = s.regs := by
  unfold ReadMemoryWord
  repeat' split
  all_goals simp

@[simp] theorem writeMemoryByte_regs (bus : Bus) (fuel addr v : Nat) (s : CPUState G) :
    (WriteMemoryByte bus fuel addr v s).regs = s.regs := by
  unfold WriteMemoryByte
  repeat' split
  all_goals simp

@[simp] theorem writeMemoryHalfWord_regs (bus : Bus) (fuel addr v : Nat) (s : CPUState G) :
    (WriteMemoryHalfWord bus fuel addr v s).regs = s.regs := by
  unfold WriteMemoryHalfWord
  repeat' split
  all_goals simp

@[simp] theorem writeMemoryWord_regs (bus : Bus) (fuel addr v : Nat) (s : CPUState G) :
    (WriteMemoryWord bus fuel addr v s).regs = s.regs := by
  unfold WriteMemoryWord
  repeat' split
  all_goals simp

@[simp] theorem writeReg_regs_zero (s : CPUState G) (r : Fin 32) (v : Nat) :
    (WriteReg s r v).regs 0 = s.regs 0 := by
  unfold WriteReg
  split
  · rfl
  · next h => exact Function.update_noteq (fun h0 => h h0.symm) v s.regs

@[simp] theorem writeRegDelayed_regs_zero (s : CPUState G) (r : Fin 32) (v : Nat) :
    (WriteRegDelayed s r v).regs 0 = s.regs 0 := by
  unfold WriteRegDelayed
  split
  · rfl
  · next h => exact Function.update_noteq (fun h0 => h h0.symm) v s.regs

@[simp] theorem update_ra_regs_zero (f : Fin 32 → Nat) (v : Nat) :
    Function.update f 31 v 0 = f 0 :=
  Function.update_noteq (by decide) v f

@[simp] theorem writeCop0Reg_regs (s : CPUState G) (n v : Nat) :
    (WriteCop0Reg s n v).regs = s.regs := by
  unfold WriteCop0Reg
  repeat' split
  all_goals rfl

theorem executeCop0_regs_zero (bus : Bus) (fuel : Nat) (s : CPUState G) :
    (ExecuteCop0Instruction bus fuel s).regs 0 = s.regs 0 := by
  unfold ExecuteCop0Instruction
  dsimp only
  repeat' split
  all_goals simp

theorem executeCop2_regs_zero (gi : GTEIface G) (s : CPUState G) :
    (ExecuteCop2Instruction gi s).regs 0 = s.regs 0 := by
  unfold ExecuteCop2Instruction
  dsimp only
  repeat' split
  all_goals simp

theorem executeInstruction_regs_zero (gi : GTEIface G) (bus : Bus) (fuel : Nat)
    (s : CPUState G) :
    (ExecuteInstruction gi bus fuel s).regs 0 = s.regs 0 := by
  unfold ExecuteInstruction Branch
  dsimp only
  repeat' split
  all_goals simp [executeCop0_regs_zero, executeCop2_regs_zero]

theorem dispatchInterrupts_regs (bus : Bus) (fuel : Nat) (s : CPUState G) :
    ((DispatchInterrupts bus fuel s).2).regs = s.regs := by
  unfold DispatchInterrupts
  repeat' split
  all_goals simp

theorem step_regs_zero (gi : GTEIface G) (bus : Bus) (fuel : Nat) (s : CPUState G) :
    (Step gi bus fuel s).regs 0 = s.regs 0 := by
  unfold Step
  dsimp only
  repeat' split
  all_goals
    simp [executeInstruction_regs_zero, dispatchInterrupts_regs, fetchInstruction_regs]

end CPU

namespace CPU

/-- C2: register 0 stays 0 across any number of CPU steps of any program
(every write to register 0 is dropped, both on the direct path and on the
delayed path). -/
theorem C2_register_zero {G : Type} (gi : GTEIface G) (bus : Bus)
    (fuel n : Nat) (s : CPUState G) (v : Nat) (h : s.regs 0 = 0) :
    (StepN gi bus fuel n s).regs 0 = 0 ∧
    (Step gi bus fuel s).regs 0 = 0 ∧
    WriteReg s 0 v = s ∧
    WriteRegDelayed s 0 v = s := by
  refine ⟨?_, by rw [step_regs_zero, h], by unfold WriteReg; simp, by unfold WriteRegDelayed; simp⟩
  induction n generalizing s with
  | zero => exact h
  | succ m ih =>
    show (StepN gi bus fuel m (Step gi bus fuel s)).regs 0 = 0
    exact ih (Step gi bus fuel s) (by rw [step_regs_zero, h])

/-- Witness for C2: three steps over the all-zero bus from the zero state. -/
theorem C2_witness :
    (StepN UnitGTE AllZeroBus 1 3 ZeroState).regs 0 = 0 :=
  (C2_register_zero UnitGTE AllZeroBus 1 3 ZeroState 0 rfl).1

end CPU

namespace CPU

theorem raiseCore_npc (e : Exc) (epc : Nat) (bd bt : Bool) (ce : Nat)
    (s : CPUState G) :
    (RaiseCore e epc bd bt ce s).npc = GetExceptionVector s.cop0.sr.BEV := by
  unfold RaiseCore
  cases bd <;> rfl

theorem raiseCore_mode_bits (e : Exc) (epc : Nat) (bd bt : Bool) (ce : Nat)
    (s : CPUState G) :
    (RaiseCore e epc bd bt ce s).cop0.sr.mode_bits =
      (s.cop0.sr.mode_bits <<< 2) % 64 := by
  unfold RaiseCore
  cases bd <;> rfl

theorem flushPrep_npc (s : CPUState G) : (FlushPrep s).npc = s.npc := rfl

theorem flushPrep_cop0 (s : CPUState G) : (FlushPrep s).cop0 = s.cop0 := rfl

theorem vector_mod_four (b : Bool) : GetExceptionVector b % 4 = 0 := by
  cases b <;> decide

theorem vector_add_four (b : Bool) :
    (GetExceptionVector b + 4) % MASK32 = GetExceptionVector b + 4 := by
  cases b <;> decide

theorem vector_value (b : Bool) :
    GetExceptionVector b = (if b then 0xBFC00180 else 0x80000080) := by
  cases b <;> decide

theorem fetch_success (bus : Bus) (fuel : Nat) (s : CPUState G) (w : Nat)
    (ha : s.npc % 4 = 0) (hr : bus.readWord s.npc = some w) :
    FetchInstruction bus fuel s =
      (true, { s with next_instruction := w, pc := s.npc, npc := (s.npc + 4) % MASK32 }) := by
  unfold FetchInstruction
  rw [if_pos ha, hr]

/-- C1 (amended): after RaiseException completes — including the pipeline
flush, whose refetch succeeds at the vector — pc equals the exception vector
(0xBFC00180 when SR.BEV is set, else 0x80000080), npc equals the vector plus
4, and SR.mode_bits equals its prior value shifted left by two truncated to
the 6-bit field (so its low two bits are zero). -/
theorem C1_exception_vector {G : Type} (bus : Bus) (fuel : Nat) (exc : Exc)
    (epc : Nat) (bd bt : Bool) (ce : Nat) (s : CPUState G) (w : Nat)
    (h : bus.readWord (GetExceptionVector s.cop0.sr.BEV) = some w) :
    (RaiseException bus fuel exc epc bd bt ce s).pc =
      GetExceptionVector s.cop0.sr.BEV ∧
    (RaiseException bus fuel exc epc bd bt ce s).npc =
      GetExceptionVector s.cop0.sr.BEV + 4 ∧
    (RaiseException bus fuel exc epc bd bt ce s).cop0.sr.mode_bits =
      (s.cop0.sr.mode_bits <<< 2) % 64 ∧
    (RaiseException bus fuel exc epc bd bt ce s).cop0.sr.mode_bits % 4 = 0 ∧
    GetExceptionVector s.cop0.sr.BEV =
      (if s.cop0.sr.BEV then 0xBFC00180 else 0x80000080) := by
  have hmod : ∀ x : Nat, (x <<< 2) % 64 % 4 = 0 := by
    intro x
    rw [Nat.shiftLeft_eq]
    omega
  have hnpc : (FlushPrep (RaiseCore exc epc bd bt ce s)).npc =
      GetExceptionVector s.cop0.sr.BEV := by
    rw [flushPrep_npc, raiseCore_npc]
  have hfetch := fetch_success bus fuel (FlushPrep (RaiseCore exc epc bd bt ce s)) w
    (by rw [hnpc]; exact vector_mod_four _) (by rw [hnpc]; exact h)
  unfold RaiseException
  rw [hfetch]
  refine ⟨hnpc, ?_, ?_, ?_, vector_value _⟩
  · show ((FlushPrep (RaiseCore exc epc bd bt ce s)).npc + 4) % MASK32 = _
    rw [hnpc, vector_add_four]
  · show (FlushPrep (RaiseCore exc epc bd bt ce s)).cop0.sr.mode_bits = _
    rw [flushPrep_cop0, raiseCore_mode_bits]
  · show (FlushPrep (RaiseCore exc epc bd bt ce s)).cop0.sr.mode_bits % 4 = 0
    rw [flushPrep_cop0, raiseCore_mode_bits]
    exact hmod _

/-- Counterexample to C1 as stated: raising an overflow exception from the
zero state (BEV clear) over the all-zero bus leaves npc at 0x80000084, not
at the vector 0x80000080 — the pipeline flush refetches from the vector and
advances npc past it. -/
theorem C1_counterexample :
    (RaiseException AllZeroBus 1 Exc.Ov 0 false false 0 ZeroState).npc ≠
      0x80000080 := by decide

/-- Witness for C1 at the zero state over the all-zero bus. -/
theorem C1_witness :
    (RaiseException AllZeroBus 1 Exc.Ov 0 false false 0 ZeroState).pc =
      GetExceptionVector ZeroState.cop0.sr.BEV :=
  (C1_exception_vector AllZeroBus 1 Exc.Ov 0 false false 0 ZeroState 0 rfl).1

end CPU

namespace CPU

/-- C3: ReadReg returns load_delay_old_value exactly when the register is the
pending load-delay register and the register file entry otherwise;
WriteRegDelayed writes immediately while recording (register, prior value)
into the next-load-delay slot (dropping register 0); the shadow advances one
step per executed instruction, so in the lw r4 / addu r5, r4, r0 scenario
the consumer reads the pre-load value: r4 ends 0x55 but r5 ends 0xAA. -/
theorem C3_load_delay {G : Type} (s : CPUState G) (r : Fin 32) (v : Nat) :
    (s.load_delay_reg = some r → ReadReg s r = s.load_delay_old_value) ∧
    (s.load_delay_reg ≠ some r → ReadReg s r = s.regs r) ∧
    (r ≠ 0 →
      (WriteRegDelayed s r v).regs r = v ∧
      (WriteRegDelayed s r v).next_load_delay_reg = some r ∧
      (WriteRegDelayed s r v).next_load_delay_old_value = ReadReg s r) ∧
    WriteRegDelayed s 0 v = s ∧
    (StepN UnitGTE LoadDelayBus 1 2 LoadDelayState).regs 4 = 0x55 ∧
    (StepN UnitGTE LoadDelayBus 1 2 LoadDelayState).regs 5 = 0xAA ∧
    (Step UnitGTE LoadDelayBus 1 LoadDelayState).load_delay_reg = some 4 ∧
    (Step UnitGTE LoadDelayBus 1 LoadDelayState).load_delay_old_value = 0xAA ∧
    (StepN UnitGTE LoadDelayBus 1 2 LoadDelayState).load_delay_reg = none := by
  refine ⟨?_, ?_, ?_, ?_, by decide, by decide, by decide, by decide, by decide⟩
  · intro h
    unfold ReadReg
    rw [if_pos h]
  · intro h
    unfold ReadReg
    rw [if_neg h]
  · intro hr
    unfold WriteRegDelayed
    rw [if_neg hr]
    exact ⟨Function.update_same r v s.regs, rfl, rfl⟩
  · unfold WriteRegDelayed
    simp

/-- Witness for C3: the pending slot shadows the read, and the delayed write
lands immediately while latching the prior value. -/
theorem C3_witness :
    ReadReg { LoadDelayState with load_delay_reg := some 4, load_delay_old_value := 7 } 4 = 7 ∧
    (WriteRegDelayed LoadDelayState 4 0x55).regs 4 = 0x55 ∧
    (WriteRegDelayed LoadDelayState 4 0x55).next_load_delay_old_value = 0xAA :=
  ⟨(C3_load_delay { LoadDelayState with
      load_delay_reg := some 4, load_delay_old_value := 7 } 4 0).1 rfl,
   ((C3_load_delay LoadDelayState 4 0x55).2.2.1 (by decide)).1,
   by
    rw [((C3_load_delay LoadDelayState 4 0x55).2.2.1 (by decide)).2.2]
    decide⟩

end CPU

namespace CPU

/-- C5: for a div instruction, a zero divisor sets lo to 0xFFFFFFFF for a
non-negative numerator and 1 otherwise with hi the numerator;
0x80000000 / -1 gives lo 0x80000000 and hi 0; otherwise lo/hi are the
truncated quotient/remainder.  divu with a zero divisor sets lo 0xFFFFFFFF
and hi the numerator.  Concretely, after ori r1, r0, 10; div r1, r0;
mflo r2; mfhi r3, r2 is 0xFFFFFFFF and r3 is 10. -/
theorem C5_division {G : Type} (gi : GTEIface G) (bus : Bus) (fuel : Nat)
    (s : CPUState G) (hop : instOp s.current_instruction = 0) :
    (instFunct s.current_instruction = 26 →
      (toSigned (ReadReg s (instRt s.current_instruction)) = 0 →
        (ExecuteInstruction gi bus fuel s).lo =
          (if 0 ≤ toSigned (ReadReg s (instRs s.current_instruction))
            then 0xFFFFFFFF else 1) ∧
        (ExecuteInstruction gi bus fuel s).hi =
          ofInt (toSigned (ReadReg s (instRs s.current_instruction)))) ∧
      (toSigned (ReadReg s (instRs s.current_instruction)) = -0x80000000 →
        toSigned (ReadReg s (instRt s.current_instruction)) = -1 →
        (ExecuteInstruction gi bus fuel s).lo = 0x80000000 ∧
        (ExecuteInstruction gi bus fuel s).hi = 0) ∧
      (toSigned (ReadReg s (instRt s.current_instruction)) ≠ 0 →
        ¬(toSigned (ReadReg s (instRs s.current_instruction)) = -0x80000000 ∧
          toSigned (ReadReg s (instRt s.current_instruction)) = -1) →
        (ExecuteInstruction gi bus fuel s).lo =
          ofInt (Int.tdiv (toSigned (ReadReg s (instRs s.current_instruction)))
            (toSigned (ReadReg s (instRt s.current_instruction)))) ∧
        (ExecuteInstruction gi bus fuel s).hi =
          ofInt (Int.tmod (toSigned (ReadReg s (instRs s.current_instruction)))
            (toSigned (ReadReg s (instRt s.current_instruction)))))) ∧
    (instFunct s.current_instruction = 27 →
      (ReadReg s (instRt s.current_instruction) = 0 →
        (ExecuteInstruction gi bus fuel s).lo = 0xFFFFFFFF ∧
        (ExecuteInstruction gi bus fuel s).hi =
          ReadReg s (instRs s.current_instruction)) ∧
      (ReadReg s (instRt s.current_instruction) ≠ 0 →
        (ExecuteInstruction gi bus fuel s).lo =
          ReadReg s (instRs s.current_instruction) /
            ReadReg s (instRt s.current_instruction) ∧
        (ExecuteInstruction gi bus fuel s).hi =
          ReadReg s (instRs s.current_instruction) %
            ReadReg s (instRt s.current_instruction))) ∧
    (StepN UnitGTE DivZeroBus 1 4 DivZeroState).regs 2 = 0xFFFFFFFF ∧
    (StepN UnitGTE DivZeroBus 1 4 DivZeroState).regs 3 = 10 := by
  refine ⟨?_, ?_, by decide, by decide⟩
  · intro hf
    unfold ExecuteInstruction
    dsimp only
    rw [hop, hf]
    dsimp only
    refine ⟨?_, ?_, ?_⟩
    · intro hd
      rw [if_pos hd]
      exact ⟨rfl, rfl⟩
    · intro hn hd
      rw [if_neg (by rw [hd]; norm_num), if_pos ⟨hn, hd⟩]
      exact ⟨rfl, rfl⟩
    · intro hd hnd
      rw [if_neg hd, if_neg hnd]
      exact ⟨rfl, rfl⟩
  · intro hf
    unfold ExecuteInstruction
    dsimp only
    rw [hop, hf]
    dsimp only
    refine ⟨?_, ?_⟩
    · intro hd
      rw [if_pos hd]
      exact ⟨rfl, rfl⟩
    · intro hd
      rw [if_neg hd]
      exact ⟨rfl, rfl⟩

/-- Witness for C5: div r1, r0 with r1 = 10 gives lo 0xFFFFFFFF and hi 10. -/
theorem C5_witness :
    (ExecuteInstruction UnitGTE AllZeroBus 1
      { DivZeroState with
        current_instruction := 0x0020001A
        regs := fun i => if i = 1 then 10 else 0 }).lo = 0xFFFFFFFF ∧
    (ExecuteInstruction UnitGTE AllZeroBus 1
      { DivZeroState with
        current_instruction := 0x0020001A
        regs := fun i => if i = 1 then 10 else 0 }).hi = 10 := by
  have h := ((C5_division UnitGTE AllZeroBus 1
    { DivZeroState with
      current_instruction := 0x0020001A
      regs := fun i => if i = 1 then 10 else 0 } rfl).1 rfl).1 (by decide)
  refine ⟨?_, ?_⟩
  · rw [h.1]; decide
  · rw [h.2]; decide

end CPU

namespace CPU

theorem signBit_iff (x : Nat) (hx : x < 4294967296) :
    Nat.testBit x 31 = decide (2147483648 ≤ x) := by
  rw [Nat.testBit_to_div_mod]
  have h31 : (2 : Nat) ^ 31 = 2147483648 := by norm_num
  rw [h31]
  exact decide_eq_decide.mpr (by omega)

theorem addOverflow_iff (a b : Nat) (ha : a < 4294967296) (hb : b < 4294967296) :
    AddOverflow a b ((a + b) % 4294967296) = true ↔
      ¬(-2147483648 ≤ toSigned a + toSigned b ∧
        toSigned a + toSigned b < 2147483648) := by
  have hn : (a + b) % 4294967296 < 4294967296 := Nat.mod_lt _ (by norm_num)
  have h31 : (2147483648 : Nat) = 2 ^ 31 := by norm_num
  have hmul : ∀ c : Bool, (c.toNat * 2 ^ 31 ≠ 0) ↔ c = true := by
    intro c
    cases c <;> simp
  unfold AddOverflow
  rw [bne_iff_ne, h31, Nat.and_two_pow, hmul, Nat.testBit_and, Nat.testBit_xor,
    Nat.testBit_xor, signBit_iff _ hn, signBit_iff _ ha, signBit_iff _ hb]
  simp only [Bool.and_eq_true, Bool.xor_iff_ne, Ne, decide_eq_decide, toSigned]
  split_ifs <;> omega

theorem subOverflow_iff (a b : Nat) (ha : a < 4294967296) (hb : b < 4294967296) :
    SubOverflow a b ((a + (4294967296 - b)) % 4294967296) = true ↔
      ¬(-2147483648 ≤ toSigned a - toSigned b ∧
        toSigned a - toSigned b < 2147483648) := by
  have hn : (a + (4294967296 - b)) % 4294967296 < 4294967296 :=
    Nat.mod_lt _ (by norm_num)
  have h31 : (2147483648 : Nat) = 2 ^ 31 := by norm_num
  have hmul : ∀ c : Bool, (c.toNat * 2 ^ 31 ≠ 0) ↔ c = true := by
    intro c
    cases c <;> simp
  unfold SubOverflow
  rw [bne_iff_ne, h31, Nat.and_two_pow, hmul, Nat.testBit_and, Nat.testBit_xor,
    Nat.testBit_xor, signBit_iff _ hn, signBit_iff _ ha, signBit_iff _ hb]
  simp only [Bool.and_eq_true, Bool.xor_iff_ne, Ne, decide_eq_decide, toSigned]
  split_ifs <;> omega

theorem raiseCore_excode (e : Exc) (epc : Nat) (bd bt : Bool) (ce : Nat)
    (s : CPUState G) :
    (RaiseCore e epc bd bt ce s).cop0.cause.Excode = excodeOf e := by
  unfold RaiseCore
  cases bd <;> rfl

theorem raiseException_excode (bus : Bus) (fuel : Nat) (e : Exc) (epc : Nat)
    (bd bt : Bool) (ce : Nat) (s : CPUState G) (w : Nat)
    (h : bus.readWord (GetExceptionVector s.cop0.sr.BEV) = some w) :
    (RaiseException bus fuel e epc bd bt ce s).cop0.cause.Excode = excodeOf e := by
  have hnpc : (FlushPrep (RaiseCore e epc bd bt ce s)).npc =
      GetExceptionVector s.cop0.sr.BEV := by
    rw [flushPrep_npc, raiseCore_npc]
  have hfetch := fetch_success bus fuel (FlushPrep (RaiseCore e epc bd bt ce s)) w
    (by rw [hnpc]; exact vector_mod_four _) (by rw [hnpc]; exact h)
  unfold RaiseException
  rw [hfetch]
  show (FlushPrep (RaiseCore e epc bd bt ce s)).cop0.cause.Excode = _
  rw [flushPrep_cop0, raiseCore_excode]

/-- C4: the add/addi/sub overflow predicates hold exactly when the signed
sum (difference) leaves the 32-bit two's-complement range, and an add, addi
or sub instruction whose overflow predicate fires raises Ov and leaves the
whole register file (in particular the destination register) unchanged. -/
theorem C4_overflow_behavior {G : Type} (gi : GTEIface G) (bus : Bus)
    (fuel : Nat) (s : CPUState G) (a b w : Nat)
    (ha : a < MASK32) (hb : b < MASK32) :
    (AddOverflow a b ((a + b) % MASK32) = true ↔
      ¬(-2147483648 ≤ toSigned a + toSigned b ∧
        toSigned a + toSigned b < 2147483648)) ∧
    (SubOverflow a b ((a + (MASK32 - b)) % MASK32) = true ↔
      ¬(-2147483648 ≤ toSigned a - toSigned b ∧
        toSigned a - toSigned b < 2147483648)) ∧
    (instOp s.current_instruction = 0 → instFunct s.current_instruction = 32 →
      AddOverflow (ReadReg s (instRs s.current_instruction))
        (ReadReg s (instRt s.current_instruction))
        ((ReadReg s (instRs s.current_instruction) +
          ReadReg s (instRt s.current_instruction)) % MASK32) = true →
      ExecuteInstruction gi bus fuel s = RaiseCur bus fuel Exc.Ov s ∧
      (ExecuteInstruction gi bus fuel s).regs = s.regs ∧
      (bus.readWord (GetExceptionVector s.cop0.sr.BEV) = some w →
        (ExecuteInstruction gi bus fuel s).cop0.cause.Excode = excodeOf Exc.Ov)) ∧
    (instOp s.current_instruction = 8 →
      AddOverflow (ReadReg s (instRs s.current_instruction))
        (sext16 (instImm s.current_instruction))
        ((ReadReg s (instRs s.current_instruction) +
          sext16 (instImm s.current_instruction)) % MASK32) = true →
      ExecuteInstruction gi bus fuel s = RaiseCur bus fuel Exc.Ov s ∧
      (ExecuteInstruction gi bus fuel s).regs = s.regs ∧
      (bus.readWord (GetExceptionVector s.cop0.sr.BEV) = some w →
        (ExecuteInstruction gi bus fuel s).cop0.cause.Excode = excodeOf Exc.Ov)) ∧
    (instOp s.current_instruction = 0 → instFunct s.current_instruction = 34 →
      SubOverflow (ReadReg s (instRs s.current_instruction))
        (ReadReg s (instRt s.current_instruction))
        ((ReadReg s (instRs s.current_instruction) +
          (MASK32 - ReadReg s (instRt s.current_instruction))) % MASK32) = true →
      ExecuteInstruction gi bus fuel s = RaiseCur bus fuel Exc.Ov s ∧
      (ExecuteInstruction gi bus fuel s).regs = s.regs ∧
      (bus.readWord (GetExceptionVector s.cop0.sr.BEV) = some w →
        (ExecuteInstruction gi bus fuel s).cop0.cause.Excode = excodeOf Exc.Ov)) := by
  refine ⟨addOverflow_iff a b ha hb, subOverflow_iff a b ha hb, ?_, ?_, ?_⟩
  · intro hop hf hov
    unfold ExecuteInstruction
    dsimp only
    rw [hop, hf]
    dsimp only
    rw [if_pos hov]
    refine ⟨rfl, by simp, fun hw => ?_⟩
    unfold RaiseCur
    exact raiseException_excode bus fuel Exc.Ov _ _ _ _ s w hw
  · intro hop hov
    unfold ExecuteInstruction
    dsimp only
    rw [hop]
    dsimp only
    rw [if_pos hov]
    refine ⟨rfl, by simp, fun hw => ?_⟩
    unfold RaiseCur
    exact raiseException_excode bus fuel Exc.Ov _ _ _ _ s w hw
  · intro hop hf hov
    unfold ExecuteInstruction
    dsimp only
    rw [hop, hf]
    dsimp only
    rw [if_pos hov]
    refine ⟨rfl, by simp, fun hw => ?_⟩
    unfold RaiseCur
    exact raiseException_excode bus fuel Exc.Ov _ _ _ _ s w hw

/-- Witness for C4: addi r1, r1, 1 with r1 = 0x7FFFFFFF overflows, raises Ov
(Excode 12), and leaves the register file unchanged. -/
theorem C4_witness :
    (ExecuteInstruction UnitGTE AllZeroBus 1
      { OverflowState with current_instruction := 0x20210001 }).regs =
      ({ OverflowState with current_instruction := 0x20210001 } : CPUState Unit).regs ∧
    (ExecuteInstruction UnitGTE AllZeroBus 1
      { OverflowState with current_instruction := 0x20210001 }).cop0.cause.Excode =
      excodeOf Exc.Ov ∧
    ¬(-2147483648 ≤ toSigned 0x7FFFFFFF + toSigned 1 ∧
      toSigned 0x7FFFFFFF + toSigned 1 < 2147483648) := by
  have h := C4_overflow_behavior UnitGTE AllZeroBus 1
    { OverflowState with current_instruction := 0x20210001 } 0x7FFFFFFF 1 0
    (by norm_num [MASK32]) (by norm_num [MASK32])
  have hb := h.2.2.2.1 (by decide) (by decide)
  exact ⟨hb.2.1, hb.2.2 rfl, h.1.mp (by decide)⟩

end CPU
